import Mathlib

/-
  Shallow embedding of the GalSimInterface repository
  (galSimInterpreter.py, galSimDetector.py, galSimCelestialObject.py).

  Conventions of the embedding:
  * Python floats that only ever hold exactly-representable small decimal
    constants and products of catalog data are modelled as rationals.
  * Python 2 integer division (`getXMax()/2` on ints) is floor division,
    modelled with Int.fdiv.
  * The external renderer (galsim drawImage with photon shooting), the
    camera transforms and the WCS fitter are opaque collaborators; they are
    fields of an environment record.  The pupil-containment test of a
    detector is modelled directly in arcseconds (the source converts the
    arcsecond values to radians with the fixed linear map radiansFromArcsec
    and then calls containsPupilCoordinates; the composition of the two is
    the abstract field containsPupilArcsec).
  * The shared random stream (galsim.UniformDeviate) is modelled by the
    number of stochastic draw calls that have consumed it; every
    drawImage call with rng=self._rng advances it.
  * Mutable galsim images live on an explicit heap of numbered objects, so
    that copy semantics and aliasing are observable.
-/

namespace GalSim

/-- Python exception kinds that the modelled code can raise. -/
inductive PyErr
  | runtimeError
  | typeError
  | valueError
  | keyError
deriving DecidableEq

/-- GalSimDetector as consumed by the interpreter: identity, pixel
bounding box, pupil-plane bounding box in arcseconds, and the abstract
pupil-containment test (camera transform collaborator). -/
structure GalSimDetector where
  name : String
  fileName : String
  xMinPix : Int
  xMaxPix : Int
  yMinPix : Int
  yMaxPix : Int
  xMinArcsec : ℚ
  xMaxArcsec : ℚ
  yMinArcsec : ℚ
  yMaxArcsec : ℚ
  containsPupilArcsec : ℚ → ℚ → Bool

/-- GalSimCelestialObject: the immutable per-object record. `sed` is the
opaque spectral handle (present or absent); `fluxDict` maps bandpass names
to precomputed electron counts. -/
structure GsObject where
  galSimType : String
  sed : Option Unit
  xPupilArcsec : ℚ
  yPupilArcsec : ℚ
  halfLightRadiusArcsec : ℚ
  minorAxisRadians : ℚ
  majorAxisRadians : ℚ
  positionAngleRadians : ℚ
  sindex : ℚ
  fluxDict : List (String × ℚ)
deriving DecidableEq

/-- A centered GalSim GSObject (profile).  The constructors record the
data the source feeds to the external renderer when building the profile;
the renderer itself is opaque. -/
inductive GSProfile
  | sersicOf (sindex hlr minorAxis majorAxis posAngle : ℚ) (psfApplied : Bool)
  | pointOf (xPupil yPupil : ℚ)
deriving DecidableEq

/-- GalSimInterpreter.drawPointSource: raises RuntimeError when no PSF is
configured, otherwise delegates to the PSF collaborator. -/
def drawPointSource (psfPresent : Bool) (o : GsObject) : Except PyErr GSProfile :=
  if psfPresent then .ok (.pointOf o.xPupilArcsec o.yPupilArcsec)
  else .error .runtimeError

/-- GalSimInterpreter.drawSersic: builds the sheared Sersic profile from
the object's morphology fields, applying the PSF when configured. -/
def drawSersic (psfPresent : Bool) (o : GsObject) : GSProfile :=
  .sersicOf o.sindex o.halfLightRadiusArcsec o.minorAxisRadians
    o.majorAxisRadians o.positionAngleRadians psfPresent

/-- GalSimInterpreter.createCenteredObject: dispatches on galSimType;
anything other than sersic / pointSource prints an apology and yields
None. -/
def createCenteredObject (psfPresent : Bool) (o : GsObject) :
    Except PyErr (Option GSProfile) :=
  if o.galSimType = "sersic" then .ok (some (drawSersic psfPresent o))
  else if o.galSimType = "pointSource" then
    match drawPointSource psfPresent o with
    | .ok p => .ok (some p)
    | .error e => .error e
  else .ok none

/-- The coarse test image returned by centeredObj.drawImage.  Bounds are
galsim image bounds (getXMin..getXMax, getYMin..getYMax); `arr` is the
numpy array view, `arr[i][j]` with i the first (row) axis, and the image
call `image(x, y)` reads `arr[y - yMinB][x - xMinB]`. -/
structure TestImage where
  xMinB : Int
  xMaxB : Int
  yMinB : Int
  yMaxB : Int
  arr : List (List ℚ)
  scale : ℚ
deriving DecidableEq

/-- The fixed test platescale (0.1 arcsec per pixel). -/
def testScale : ℚ := 1 / 10

/-- xmax of the coarse bounding box: testScale * (getXMax()/2) + xPupilArcsec
(Python 2 floor division on the int). -/
def bboxXmax (img : TestImage) (xP : ℚ) : ℚ :=
  testScale * ((Int.fdiv img.xMaxB 2 : ℤ) : ℚ) + xP

/-- xmin of the coarse bounding box: testScale * (-1*getXMax()/2) + xPupilArcsec. -/
def bboxXmin (img : TestImage) (xP : ℚ) : ℚ :=
  testScale * ((Int.fdiv (-1 * img.xMaxB) 2 : ℤ) : ℚ) + xP

/-- ymax of the coarse bounding box: testScale * (getYMax()/2) + yPupilArcsec. -/
def bboxYmax (img : TestImage) (yP : ℚ) : ℚ :=
  testScale * ((Int.fdiv img.yMaxB 2 : ℤ) : ℚ) + yP

/-- ymin of the coarse bounding box: the source reads
testScale * (-1*getYMin()/2) + yPupilArcsec (note: getYMin, unlike the
x branch which uses getXMax in both bounds). -/
def bboxYmin (img : TestImage) (yP : ℚ) : ℚ :=
  testScale * ((Int.fdiv (-1 * img.yMinB) 2 : ℤ) : ℚ) + yP

/-- The three-branch 1-D interval test of findAllDetectors, for the object
interval [amin, amax] against a detector interval [bmin, bmax]:
amax strictly inside, else amin strictly inside, else strict containment
of the detector interval by the object interval. -/
def overlapTest (amin amax bmin bmax : ℚ) : Bool :=
  if amax > bmin ∧ amax < bmax then true
  else if amin > bmin ∧ amin < bmax then true
  else if amin < bmin ∧ amax > bmax then true
  else false

/-- Pass 1 of findAllDetectors: keep the detectors whose pupil bounding
box passes the interval test on both axes. -/
def viableDetectors (dets : List GalSimDetector) (xmin xmax ymin ymax : ℚ) :
    List GalSimDetector :=
  dets.filter (fun dd =>
    overlapTest xmin xmax dd.xMinArcsec dd.xMaxArcsec &&
    overlapTest ymin ymax dd.yMinArcsec dd.yMaxArcsec)

/-- The galsim image call image(x, y): reads the array at row y - yMinB,
column x - xMinB (out-of-range reads default to 0 in the model; the
source only evaluates it in range). -/
def imageAt (img : TestImage) (x y : Int) : ℚ :=
  (img.arr.getD (y - img.yMinB).toNat []).getD (x - img.xMinB).toNat 0

/-- maxPixel = centeredImage(getXMax()/2, getYMax()/2): the flux of the
central pixel of the test image (Python 2 floor division). -/
def maxPixel (img : TestImage) : ℚ :=
  imageAt img (Int.fdiv img.xMaxB 2) (Int.fdiv img.yMaxB 2)

/-- Column indices of one row exceeding the threshold (one row of
numpy.where(arr > t)). -/
def rowWhere (row : List ℚ) (t : ℚ) : List Nat :=
  (List.range row.length).filter (fun j => row.getD j 0 > t)

/-- numpy.where(arr > t) over a 2-D array, as the list of (first-axis,
second-axis) index pairs in row-major order. -/
def npWhere (arr : List (List ℚ)) (t : ℚ) : List (Nat × Nat) :=
  (List.range arr.length).flatMap
    (fun i => (rowWhere (arr.getD i []) t).map (fun j => (i, j)))

/-- activePixels = numpy.where(centeredImage.array > maxPixel*0.001). -/
def activePixels (img : TestImage) : List (Nat × Nat) :=
  npWhere img.arr (maxPixel img * (1 / 1000))

/-- Minimum of a numpy integer index array (the source calls .min() only
on nonempty arrays; [] is given a dummy value, the empty case raises
ValueError at the call site). -/
def listMinD : List Nat → Nat
  | [] => 0
  | h :: t => t.foldl Nat.min h

/-- Maximum of a numpy integer index array, same conventions as listMinD. -/
def listMaxD : List Nat → Nat
  | [] => 0
  | h :: t => t.foldl Nat.max h

/-- testScale * (i - getXMax()/2) + xPupilArcsec: the pupil x-coordinate
the narrow phase assigns to first-axis index i. -/
def pxToArcsecX (img : TestImage) (xP : ℚ) (i : Nat) : ℚ :=
  testScale * ((((i : ℤ) - Int.fdiv img.xMaxB 2 : ℤ)) : ℚ) + xP

/-- testScale * (j - getYMax()/2) + yPupilArcsec: the pupil y-coordinate
the narrow phase assigns to second-axis index j. -/
def pxToArcsecY (img : TestImage) (yP : ℚ) (j : Nat) : ℚ :=
  testScale * ((((j : ℤ) - Int.fdiv img.yMaxB 2 : ℤ)) : ℚ) + yP

/-- Narrow-phase xmin: testScale * (activePixels[0].min() - getXMax()/2) + xPupilArcsec. -/
def narrowXmin (img : TestImage) (xP : ℚ) : ℚ :=
  pxToArcsecX img xP (listMinD ((activePixels img).map Prod.fst))

/-- Narrow-phase xmax: testScale * (activePixels[0].max() - getXMax()/2) + xPupilArcsec. -/
def narrowXmax (img : TestImage) (xP : ℚ) : ℚ :=
  pxToArcsecX img xP (listMaxD ((activePixels img).map Prod.fst))

/-- Narrow-phase ymin: testScale * (activePixels[1].min() - getYMax()/2) + yPupilArcsec. -/
def narrowYmin (img : TestImage) (yP : ℚ) : ℚ :=
  pxToArcsecY img yP (listMinD ((activePixels img).map Prod.snd))

/-- Narrow-phase ymax: testScale * (activePixels[1].max() - getYMax()/2) + yPupilArcsec. -/
def narrowYmax (img : TestImage) (yP : ℚ) : ℚ :=
  pxToArcsecY img yP (listMaxD ((activePixels img).map Prod.snd))

/-- GalSimInterpreter._doesObjectImpingeOnDetector: maps every active
pixel offset into pupil coordinates and tests containment; true when any
pixel lands on the detector. -/
def doesObjectImpingeOnDetector (xPupil yPupil : ℚ) (det : Option GalSimDetector)
    (imgScale : ℚ) (nzX nzY : List Nat) : Bool :=
  match det with
  | none => false
  | some d =>
    let xs := nzX.map (fun ix => xPupil + (ix : ℚ) * imgScale)
    let ys := nzY.map (fun iy => yPupil + (iy : ℚ) * imgScale)
    ((xs.zip ys).map (fun p => d.containsPupilArcsec p.1 p.2)).any id

/-- The pass-2 acceptance test applied to each viable detector: the
interval test on the tightened bounding box on both axes, then the exact
per-pixel containment check (origin at
xPupilArcsec - getXMax()*testScale/2.0, float division here). -/
def acceptsDetector (img : TestImage) (o : GsObject) (dd : GalSimDetector) : Bool :=
  overlapTest (narrowXmin img o.xPupilArcsec) (narrowXmax img o.xPupilArcsec)
      dd.xMinArcsec dd.xMaxArcsec &&
  overlapTest (narrowYmin img o.yPupilArcsec) (narrowYmax img o.yPupilArcsec)
      dd.yMinArcsec dd.yMaxArcsec &&
  doesObjectImpingeOnDetector
    (o.xPupilArcsec - (img.xMaxB : ℚ) * testScale / 2)
    (o.yPupilArcsec - (img.yMaxB : ℚ) * testScale / 2)
    (some dd) img.scale
    ((activePixels img).map Prod.fst) ((activePixels img).map Prod.snd)

/-- One step of the output-string accumulation: append '//' before the
new name unless the string is still empty. -/
def addName (s n : String) : String :=
  (if s ≠ "" then s ++ "//" else s) ++ n

/-- The final accumulation loop of findAllDetectors: fold over the viable
detectors, extending outputString and outputList for each accepted one. -/
def acceptLoop (accept : GalSimDetector → Bool) (viable : List GalSimDetector) :
    String × List GalSimDetector :=
  viable.foldl
    (fun acc dd => if accept dd then (addName acc.1 dd.name, acc.2 ++ [dd]) else acc)
    ("", [])

/-- The mutable pixel data of one galsim image object.  `pix` records the
explicit pixel writes (latest first, default 0); `noiseCount` counts the
applications of the noise/background collaborator to this buffer and
`drawCount` the accumulation passes drawn into it. -/
structure ImgData where
  nx : Int
  ny : Int
  pix : List ((Int × Int) × ℚ)
  noiseCount : Nat
  drawCount : Nat
deriving DecidableEq

/-- The heap of live galsim image objects: numbered objects plus the next
fresh object number. -/
structure Heap where
  objs : List (Nat × ImgData)
  nextId : Nat
deriving DecidableEq

/-- Dereference an image object. -/
def Heap.get (h : Heap) (i : Nat) : Option ImgData :=
  h.objs.lookup i

/-- Allocate a fresh image object (galsim.Image constructor or
Image.copy()), returning its number and the grown heap. -/
def Heap.alloc (h : Heap) (d : ImgData) : Nat × Heap :=
  (h.nextId, ⟨(h.nextId, d) :: h.objs, h.nextId + 1⟩)

/-- Overwrite the data of object i in place (a no-op when i is dead). -/
def Heap.set (h : Heap) (i : Nat) (d : ImgData) : Heap :=
  ⟨h.objs.map (fun p => if p.1 = i then (i, d) else p), h.nextId⟩

/-- Mutate the data of image object i in place (a no-op when i is dead). -/
def Heap.modify (h : Heap) (i : Nat) (f : ImgData → ImgData) : Heap :=
  match h.get i with
  | some d => h.set i (f d)
  | none => h

/-- Write one pixel of image object i in place. -/
def Heap.writePixel (h : Heap) (i : Nat) (p : Int × Int) (v : ℚ) : Heap :=
  h.modify i (fun d => { d with pix := (p, v) :: d.pix })

/-- The read of one pixel of an image's data. -/
def ImgData.read (d : ImgData) (p : Int × Int) : ℚ :=
  (d.pix.lookup p).getD 0

/-- The mutable session state of a GalSimInterpreter: the heap of live
images, detectorImages (FITS-file name to image object), blankImageCache
(detector name to cached blank template object), and the shared random
stream (None when no seed was given; otherwise the number of stochastic
draw calls that have consumed it). -/
structure SessionState where
  heap : Heap
  detectorImages : List (String × Nat)
  blankImageCache : List (String × Nat)
  rng : Option Nat
deriving DecidableEq

/-- The static configuration of a GalSimInterpreter: the detector list,
the bandpass names in iteration order, whether a noiseWrapper and a PSF
are configured, and the opaque external renderer producing the coarse
test image from a profile and the current random-stream state. -/
structure Env where
  detectors : List GalSimDetector
  bandpassNames : List String
  noiseConfigured : Bool
  psfPresent : Bool
  renderTest : GSProfile → Option Nat → TestImage

/-- Advance the shared random stream by one stochastic draw call (no-op
when the interpreter was built without a seed). -/
def rngTick (st : SessionState) : SessionState :=
  { st with rng := st.rng.map (· + 1) }

/-- The zero-filled image galsim.Image(xMaxPix-xMinPix+1, yMaxPix-yMinPix+1,
wcs=detector.wcs) built for a detector. -/
def blankData (det : GalSimDetector) : ImgData :=
  { nx := det.xMaxPix - det.xMinPix + 1
    ny := det.yMaxPix - det.yMinPix + 1
    pix := []
    noiseCount := 0
    drawCount := 0 }

/-- GalSimInterpreter.blankImage: on a cache hit return a copy of the
cached template; on a miss build the blank image, cache it, and return a
copy.  Either way the caller receives a freshly allocated object. -/
def blankImage (st : SessionState) (det : GalSimDetector) : Nat × SessionState :=
  match st.blankImageCache.lookup det.name with
  | some tid =>
    let d := (st.heap.get tid).getD (blankData det)
    let a := st.heap.alloc d
    (a.1, { st with heap := a.2 })
  | none =>
    let d := blankData det
    let a1 := st.heap.alloc d
    let st1 := { st with
      heap := a1.2
      blankImageCache := st.blankImageCache ++ [(det.name, a1.1)] }
    let a2 := st1.heap.alloc d
    (a2.1, { st1 with heap := a2.2 })

/-- GalSimInterpreter._getFileName: detectorFileName_bandpassName.fits. -/
def getFileName (det : GalSimDetector) (bp : String) : String :=
  det.fileName ++ "_" ++ bp ++ ".fits"

/-- Apply the noise/background collaborator to image object i in place
(addNoiseAndBackground; observable effect: one more noise application). -/
def applyNoise (h : Heap) (i : Nat) : Heap :=
  h.modify i (fun d => { d with noiseCount := d.noiseCount + 1 })

/-- One iteration of the first drawObject loop: create the composite
image for (detector, bandpass) if its key is absent, applying noise and
background exactly at creation when a noiseWrapper is configured. -/
def initImage (env : Env) (st : SessionState) (det : GalSimDetector) (bp : String) :
    SessionState :=
  let name := getFileName det bp
  match st.detectorImages.lookup name with
  | some _ => st
  | none =>
    let a := blankImage st det
    let st2 := { a.2 with detectorImages := a.2.detectorImages ++ [(name, a.1)] }
    if env.noiseConfigured then { st2 with heap := applyNoise st2.heap a.1 }
    else st2

/-- The inner bandpass loop of the first drawObject loop. -/
def initImagesForDet (env : Env) (st : SessionState) (det : GalSimDetector) :
    SessionState :=
  env.bandpassNames.foldl (fun s bp => initImage env s det bp) st

/-- The first drawObject loop over the affected detectors. -/
def initAllImages (env : Env) (st : SessionState) (dets : List GalSimDetector) :
    SessionState :=
  dets.foldl (fun s d => initImagesForDet env s d) st

/-- GalSimCelestialObject.flux: raises RuntimeError when the bandpass is
not in the flux dictionary. -/
def fluxLookup (o : GsObject) (bp : String) : Except PyErr ℚ :=
  match o.fluxDict.lookup bp with
  | some f => .ok f
  | none => .error .runtimeError

/-- obj.drawImage(..., image=self.detectorImages[name], add_to_image=True):
consumes the shared random stream and accumulates one more drawn pass
into the image under the given key. -/
def accumulate (st : SessionState) (name : String) : SessionState :=
  let st1 := rngTick st
  match st1.detectorImages.lookup name with
  | some iid =>
    { st1 with heap := st1.heap.modify iid (fun d => { d with drawCount := d.drawCount + 1 }) }
  | none => st1

/-- The inner detector loop of the second drawObject loop for one
bandpass: look up the object's flux (which can raise) and accumulate the
rendered footprint into the composite image. -/
def drawOnDetectors (o : GsObject) (bp : String) (dets : List GalSimDetector)
    (st : SessionState) : Except PyErr Unit × SessionState :=
  match dets with
  | [] => (.ok (), st)
  | det :: rest =>
    match fluxLookup o bp with
    | .error e => (.error e, st)
    | .ok _ => drawOnDetectors o bp rest (accumulate st (getFileName det bp))

/-- The outer bandpass loop of the second drawObject loop. -/
def drawOnBandpasses (o : GsObject) (bps : List String)
    (dets : List GalSimDetector) (st : SessionState) :
    Except PyErr Unit × SessionState :=
  match bps with
  | [] => (.ok (), st)
  | bp :: rest =>
    match drawOnDetectors o bp dets st with
    | (.error e, st1) => (.error e, st1)
    | (.ok _, st1) => drawOnBandpasses o rest dets st1

/-- GalSimInterpreter.findAllDetectors.  Returns None (the bare `return`)
when no profile could be built; otherwise renders the coarse test image
(consuming the shared random stream), runs the broad-phase interval test,
and on a nonempty viable set runs the narrow phase and per-pixel check,
assembling outputString and outputList.  An empty active-pixel set makes
numpy's .min() raise ValueError. -/
def findAllDetectors (env : Env) (st : SessionState) (o : GsObject) :
    Except PyErr (Option (Option String × List GalSimDetector × GSProfile)) ×
      SessionState :=
  match createCenteredObject env.psfPresent o with
  | .error e => (.error e, st)
  | .ok none => (.ok none, st)
  | .ok (some prof) =>
    let img := env.renderTest prof st.rng
    let st1 := rngTick st
    let xmax := bboxXmax img o.xPupilArcsec
    let xmin := bboxXmin img o.xPupilArcsec
    let ymax := bboxYmax img o.yPupilArcsec
    let ymin := bboxYmin img o.yPupilArcsec
    let viable := viableDetectors env.detectors xmin xmax ymin ymax
    if viable.length > 0 then
      if activePixels img = [] then (.error .valueError, st1)
      else
        let r := acceptLoop (acceptsDetector img o) viable
        let outStr := if r.1 = "" then none else some r.1
        (.ok (some (outStr, r.2, prof)), st1)
    else
      (.ok (some (none, [], prof)), st1)

/-- GalSimInterpreter.drawObject.  Unpacks the findAllDetectors result
(a bare None raises TypeError at the unpacking); returns outputString
immediately when the object has no sed or no affected detector; otherwise
runs the two drawing loops. -/
def drawObject (env : Env) (st : SessionState) (o : GsObject) :
    Except PyErr (Option String) × SessionState :=
  match findAllDetectors env st o with
  | (.error e, st1) => (.error e, st1)
  | (.ok none, st1) => (.error .typeError, st1)
  | (.ok (some (outStr, dets, _prof)), st1) =>
    if o.sed = none ∨ dets.length = 0 then (.ok outStr, st1)
    else
      let st2 := initAllImages env st1 dets
      match drawOnBandpasses o env.bandpassNames dets st2 with
      | (.error e, st3) => (.error e, st3)
      | (.ok _, st3) => (.ok outStr, st3)

/-- Modelled from the spec's words for the broad-phase test (C2): overlap
holds when either interval contains an endpoint of the other (taken here
in the strict sense), or one interval strictly contains the other, in
both directions. -/
def specIntervalOverlap (amin amax bmin bmax : ℚ) : Prop :=
  (bmin < amax ∧ amax < bmax) ∨ (bmin < amin ∧ amin < bmax) ∨
  (amin < bmax ∧ bmax < amax) ∨ (amin < bmin ∧ bmin < amax) ∨
  (amin < bmin ∧ bmax < amax) ∨ (bmin < amin ∧ amax < bmax)

instance (amin amax bmin bmax : ℚ) : Decidable (specIntervalOverlap amin amax bmin bmax) := by
  unfold specIntervalOverlap
  infer_instance

/-- Maximum of a list of fluxes (0 for the empty list). -/
def listMaxQ : List ℚ → ℚ
  | [] => 0
  | h :: t => t.foldl max h

/-- The peak (maximum) flux of a 2-D array. -/
def arrMax (arr : List (List ℚ)) : ℚ := listMaxQ arr.flatten

/-- Modelled from the spec's words for the narrow phase (C4): active
pixels are those exceeding 0.1% of the peak (maximum) pixel's flux. -/
def specActivePixels (img : TestImage) : List (Nat × Nat) :=
  npWhere img.arr (arrMax img.arr * (1 / 1000))

/-- obs_metadata.bandpass as the wcs code sees it: absent, one bandpass
name, or a list/array of names. -/
inductive BandSpec
  | noBand
  | single (s : String)
  | multi
deriving DecidableEq

/-- The band-to-index dictionary lookup {u:0,g:1,r:2,i:3,z:4,y:5}[bp]
(None when the lookup would raise KeyError); lists default to 2. -/
def filtNum : BandSpec → Option Nat
  | .single s => ([("u", 0), ("g", 1), ("r", 2), ("i", 3), ("z", 4), ("y", 5)] :
      List (String × Nat)).lookup s
  | .multi => some 2
  | .noBand => none

/-- re.match('R_[0-9]_[0-9]_S_[0-9]_[0-9]', fileName): anchored prefix
match of the raft/sensor pattern. -/
def matchesRaftPattern (s : String) : Bool :=
  match s.toList with
  | 'R' :: '_' :: a :: '_' :: b :: '_' :: 'S' :: '_' :: c :: '_' :: d :: _ =>
    a.isDigit && b.isDigit && c.isDigit && d.isDigit
  | _ => false

/-- fitsHeader.set(key, value): replace the existing entry or append. -/
def setHeader (h : List (String × String)) (k v : String) : List (String × String) :=
  if (h.lookup k).isSome then h.map (fun p => if p.1 = k then (k, v) else p)
  else h ++ [(k, v)]

/-- Number of header entries carrying a given key. -/
def countKey (h : List (String × String)) (k : String) : Nat :=
  (h.filter (fun p => p.1 == k)).length

/-- wcsName = fileName.replace('_','').replace('S','_S'). -/
def wcsNameOf (fileName : String) : String :=
  (fileName.replace "_" "").replace "S" "_S"

/-- A constructed GalSim_afw_TanSipWCS instance: a distinguishing
construction number and its FITS header bag. -/
structure WcsObj where
  instanceId : Nat
  header : List (String × String)
deriving DecidableEq

/-- The per-detector data the wcs property consumes: the normalized
identity, the header produced by the external TAN-SIP fit (plus the
constructor-set fields), the observation's bandpass and the
phoSimMetaData Opsim_obshistid entry when present. -/
structure DetEnv where
  fileName : String
  baseHeader : List (String × String)
  bandpass : BandSpec
  obshistid : Option Int
deriving DecidableEq

/-- The mutable lazy-WCS state of one GalSimDetector: the memoized
instance and the number of constructions performed so far. -/
structure DetWcsState where
  cached : Option WcsObj
  buildCount : Nat
deriving DecidableEq

/-- GalSimDetector.wcs property: return the cached instance when present;
otherwise construct one instance, enrich its header with CHIPID / OBSID /
OUTFILE when the identity matches the raft/sensor pattern (the KeyError
of the band-to-index lookup fires after self._wcs was already assigned),
memoize it and return it. -/
def wcsGet (denv : DetEnv) (s : DetWcsState) : Except PyErr WcsObj × DetWcsState :=
  match s.cached with
  | some w => (.ok w, s)
  | none =>
    let w0 : WcsObj := { instanceId := s.buildCount, header := denv.baseHeader }
    if matchesRaftPattern denv.fileName then
      let nm := wcsNameOf denv.fileName
      let h1 := setHeader w0.header "CHIPID" nm
      let obshistid := denv.obshistid.getD 9999
      let h2 := match denv.obshistid with
        | some v => setHeader h1 "OBSID" (toString v)
        | none => h1
      match filtNum denv.bandpass with
      | none =>
        (.error .keyError,
         { cached := some { w0 with header := h2 }, buildCount := s.buildCount + 1 })
      | some fn =>
        let outName :=
          "lsst_e_" ++ toString obshistid ++ "_f" ++ toString fn ++ "_" ++ nm ++ "_E000"
        let w := { w0 with header := setHeader h2 "OUTFILE" outName }
        (.ok w, { cached := some w, buildCount := s.buildCount + 1 })
    else (.ok w0, { cached := some w0, buildCount := s.buildCount + 1 })

/-- Every live image object's number is below the heap's fresh counter. -/
def heapKeysBoundB (h : Heap) : Bool :=
  h.objs.all (fun p => decide (p.1 < h.nextId))

/-- Every cached blank template is a live image object. -/
def cachePresentB (st : SessionState) : Bool :=
  st.blankImageCache.all (fun c => (st.heap.get c.2).isSome)

/-- No composite image aliases a cached blank template. -/
def dictCacheDisjointB (st : SessionState) : Bool :=
  st.detectorImages.all (fun q => st.blankImageCache.all (fun c => decide (q.2 ≠ c.2)))

/-- Cached blank templates never received a noise application. -/
def templatesCleanB (st : SessionState) : Bool :=
  st.blankImageCache.all (fun c =>
    match st.heap.get c.2 with
    | some d => decide (d.noiseCount = 0)
    | none => false)

/-- Every composite image in the cache carries exactly one noise
application when a noiseWrapper is configured, and none otherwise. -/
def noiseCountOKB (env : Env) (st : SessionState) : Bool :=
  st.detectorImages.all (fun q =>
    match st.heap.get q.2 with
    | some d => decide (d.noiseCount = (if env.noiseConfigured then 1 else 0))
    | none => false)

/-- The session invariant for the noise/background behaviour: heap
well-formedness, clean non-aliased templates, and the once-per-key noise
count on every composite image. -/
def noiseInvB (env : Env) (st : SessionState) : Bool :=
  heapKeysBoundB st.heap && cachePresentB st && dictCacheDisjointB st &&
    templatesCleanB st && noiseCountOKB env st

/-- Proposition form of heapKeysBoundB. -/
def KeysBoundP (h : Heap) : Prop := ∀ p ∈ h.objs, p.1 < h.nextId

/-- Proposition form of cachePresentB. -/
def CachePresentP (st : SessionState) : Prop :=
  ∀ c ∈ st.blankImageCache, (st.heap.get c.2).isSome = true

/-- Proposition form of dictCacheDisjointB. -/
def DisjointP (st : SessionState) : Prop :=
  ∀ q ∈ st.detectorImages, ∀ c ∈ st.blankImageCache, q.2 ≠ c.2

/-- Proposition form of templatesCleanB. -/
def TemplatesCleanP (st : SessionState) : Prop :=
  ∀ c ∈ st.blankImageCache, ∃ d, st.heap.get c.2 = some d ∧ d.noiseCount = 0

/-- Proposition form of noiseCountOKB. -/
def NoiseCountP (env : Env) (st : SessionState) : Prop :=
  ∀ q ∈ st.detectorImages, ∃ d, st.heap.get q.2 = some d ∧
    d.noiseCount = (if env.noiseConfigured then 1 else 0)

/-- Proposition form of noiseInvB. -/
def NoiseInv (env : Env) (st : SessionState) : Prop :=
  KeysBoundP st.heap ∧ CachePresentP st ∧ DisjointP st ∧ TemplatesCleanP st ∧
    NoiseCountP env st

/-- A concrete detector used by the witnesses: pupil box [-10,10]^2,
pixel box 0..9 in both axes, containment test always true. -/
def detW : GalSimDetector :=
  { name := "R_0_0_S_1_1", fileName := "R_0_0_S_1_1"
    xMinPix := 0, xMaxPix := 9, yMinPix := 0, yMaxPix := 9
    xMinArcsec := -10, xMaxArcsec := 10, yMinArcsec := -10, yMaxArcsec := 10
    containsPupilArcsec := fun _ _ => true }

/-- A concrete 2x2 all-ones test image with galsim bounds 1..2. -/
def imgW : TestImage :=
  { xMinB := 1, xMaxB := 2, yMinB := 1, yMaxB := 2
    arr := [[1, 1], [1, 1]], scale := 1 / 10 }

/-- A concrete interpreter configuration used by the witnesses. -/
def envW : Env :=
  { detectors := [detW], bandpassNames := ["u"], noiseConfigured := true
    psfPresent := true, renderTest := fun _ _ => imgW }

/-- A concrete sersic object at the pupil origin with u-band flux. -/
def objW : GsObject :=
  { galSimType := "sersic", sed := some (), xPupilArcsec := 0, yPupilArcsec := 0
    halfLightRadiusArcsec := 1, minorAxisRadians := 1, majorAxisRadians := 2
    positionAngleRadians := 0, sindex := 1, fluxDict := [("u", 100)] }

/-- The fresh session state of a just-built seeded interpreter. -/
def stEmpty : SessionState :=
  { heap := ⟨[], 0⟩, detectorImages := [], blankImageCache := [], rng := some 0 }

/-- objW with a shape kind no drawing method exists for. -/
def objC1 : GsObject := { objW with galSimType := "RandomWalk" }

/-- objW with the spectral handle absent. -/
def objC6 : GsObject := { objW with sed := none }

/-- objW with an empty flux dictionary. -/
def objC10 : GsObject := { objW with fluxDict := [] }

/-- A 100x100 test image footprint (only the bounds matter): galsim
bounds 1..100 on both axes. -/
def imgC3 : TestImage :=
  { xMinB := 1, xMaxB := 100, yMinB := 1, yMaxB := 100, arr := [], scale := 1 / 10 }

/-- A 3x3 test image whose central pixel (array entry [0][0], image
coordinates (1,1)) is not the peak pixel. -/
def imgC4 : TestImage :=
  { xMinB := 1, xMaxB := 3, yMinB := 1, yMaxB := 3
    arr := [[1, 1 / 200, 0], [0, 2000, 0], [0, 0, 0]], scale := 1 / 10 }

/-- The state after the first blankImage call of the C8 witness. -/
def st1W : SessionState := (blankImage stEmpty detW).2

/-- The state after the second blankImage call of the C8 witness. -/
def st2W : SessionState := (blankImage st1W detW).2

/-- A concrete detector environment whose identity matches the
raft/sensor pattern. -/
def denvC7 : DetEnv :=
  { fileName := "R_0_0_S_1_1", baseHeader := [("CRVAL1", "0"), ("CRVAL2", "0")]
    bandpass := .single "u", obshistid := some 1234 }

/-- The fresh lazy-WCS state of a just-built detector. -/
def sC7 : DetWcsState := { cached := none, buildCount := 0 }

/-- Helper for specJoin: the tail of a '//'-joined list, each element
prefixed by the delimiter. -/
def prefixedJoin : List String → String
  | [] => ""
  | n :: t => "//" ++ n ++ prefixedJoin t

/-- Modelled from the spec's words for the output string (C9): the
identities joined by the delimiter '//'. -/
def specJoin : List String → String
  | [] => ""
  | n :: t => n ++ prefixedJoin t

/- ## Helper lemmas -/

theorem lookup_eq_some_mem {α β : Type} [BEq α] [LawfulBEq α] {a : α} {b : β}
    {l : List (α × β)} (h : List.lookup a l = some b) : (a, b) ∈ l := by
  induction l with
  | nil => simp at h
  | cons p t ih =>
    obtain ⟨k, v⟩ := p
    by_cases hak : a = k
    · subst hak
      rw [List.lookup_cons] at h
      simp at h
      subst h
      exact List.mem_cons_self _ _
    · rw [List.lookup_cons] at h
      simp [beq_false_of_ne hak] at h
      exact List.mem_cons_of_mem _ (ih h)

theorem lookup_append_left {α β : Type} [BEq α] {a : α} {l1 l2 : List (α × β)}
    {b : β} (h : List.lookup a l1 = some b) :
    List.lookup a (l1 ++ l2) = some b := by
  induction l1 with
  | nil => simp at h
  | cons p t ih =>
    obtain ⟨k, v⟩ := p
    rw [List.cons_append, List.lookup_cons]
    rw [List.lookup_cons] at h
    cases hak : (a == k) with
    | true => rw [hak] at h; exact h
    | false =>
      rw [hak] at h
      exact ih h

theorem lookup_append_right {α β : Type} [BEq α] {a : α} {l1 l2 : List (α × β)}
    (h : List.lookup a l1 = none) :
    List.lookup a (l1 ++ l2) = List.lookup a l2 := by
  induction l1 with
  | nil => simp
  | cons p t ih =>
    obtain ⟨k, v⟩ := p
    rw [List.cons_append, List.lookup_cons]
    rw [List.lookup_cons] at h
    cases hak : (a == k) with
    | true => rw [hak] at h; cases h
    | false =>
      rw [hak] at h
      exact ih h

theorem Heap.alloc_fst (h : Heap) (d : ImgData) : (h.alloc d).1 = h.nextId := rfl

theorem Heap.alloc_nextId (h : Heap) (d : ImgData) :
    ((h.alloc d).2).nextId = h.nextId + 1 := rfl

theorem Heap.set_nextId (h : Heap) (i : Nat) (d : ImgData) :
    (h.set i d).nextId = h.nextId := rfl

theorem Heap.get_alloc (h : Heap) (d : ImgData) (j : Nat) :
    ((h.alloc d).2).get j = if j = h.nextId then some d else h.get j := by
  show List.lookup j ((h.nextId, d) :: h.objs) = _
  rw [List.lookup_cons]
  by_cases hj : j = h.nextId
  · subst hj
    simp
  · simp [beq_false_of_ne hj, hj, Heap.get]

theorem lookup_map_set (l : List (Nat × ImgData)) (i : Nat) (d : ImgData) (j : Nat) :
    List.lookup j (l.map (fun p => if p.1 = i then (i, d) else p)) =
      if j = i then (List.lookup i l).map (fun _ => d) else List.lookup j l := by
  induction l with
  | nil => simp
  | cons p t ih =>
    obtain ⟨k, v⟩ := p
    by_cases hk : k = i
    · subst hk
      by_cases hj : j = k
      · subst hj
        simp [List.lookup_cons]
      · simp [List.lookup_cons, beq_false_of_ne hj, ih, hj]
    · by_cases hj : j = k
      · subst hj
        have hji : j ≠ i := hk
        simp [List.lookup_cons, if_neg hk, hji]
      · by_cases hji : j = i
        · subst hji
          simp [List.lookup_cons, if_neg hk, beq_false_of_ne hj, ih,
            beq_false_of_ne (Ne.symm hj)]
        · simp [List.lookup_cons, if_neg hk, beq_false_of_ne hj, ih, hji]

theorem Heap.get_set (h : Heap) (i : Nat) (d : ImgData) (j : Nat) :
    (h.set i d).get j = if j = i then (h.get i).map (fun _ => d) else h.get j :=
  lookup_map_set h.objs i d j

theorem Heap.get_set_ne (h : Heap) (i : Nat) (d : ImgData) {j : Nat} (hj : j ≠ i) :
    (h.set i d).get j = h.get j := by
  rw [Heap.get_set, if_neg hj]

theorem heapKeysBoundB_iff (h : Heap) :
    heapKeysBoundB h = true ↔ ∀ p ∈ h.objs, p.1 < h.nextId := by
  simp [heapKeysBoundB, List.all_eq_true]

theorem get_isSome_lt {h : Heap} (hb : heapKeysBoundB h = true) {j : Nat}
    (hj : (h.get j).isSome = true) : j < h.nextId := by
  obtain ⟨b, hbj⟩ := Option.isSome_iff_exists.mp hj
  exact (heapKeysBoundB_iff h).mp hb (j, b) (lookup_eq_some_mem hbj)

theorem keysBound_alloc {h : Heap} (hb : heapKeysBoundB h = true) (d : ImgData) :
    heapKeysBoundB (h.alloc d).2 = true := by
  rw [heapKeysBoundB_iff] at hb ⊢
  intro p hp
  rcases List.mem_cons.mp hp with hp | hp
  · subst hp; exact Nat.lt_succ_self _
  · exact Nat.lt_succ_of_lt (hb p hp)

theorem keysBound_set (h : Heap) (i : Nat) (d : ImgData) :
    heapKeysBoundB (h.set i d) = true ↔ heapKeysBoundB h = true := by
  rw [heapKeysBoundB_iff, heapKeysBoundB_iff]
  constructor
  · intro H p hp
    have h2 := H (if p.1 = i then (i, d) else p) (List.mem_map_of_mem _ hp)
    by_cases hpi : p.1 = i
    · rw [if_pos hpi] at h2
      show p.1 < (h.set i d).nextId
      rw [hpi]
      exact h2
    · rwa [if_neg hpi] at h2
  · intro H p hp
    obtain ⟨q, hq, hqe⟩ := List.mem_map.mp hp
    have h2 := H q hq
    subst hqe
    by_cases hqi : q.1 = i
    · rw [if_pos hqi]
      show i < h.nextId
      rw [← hqi]
      exact h2
    · rwa [if_neg hqi]

theorem Heap.modify_nextId (h : Heap) (i : Nat) (f : ImgData → ImgData) :
    (h.modify i f).nextId = h.nextId := by
  unfold Heap.modify
  cases h.get i <;> rfl

theorem Heap.get_modify (h : Heap) (i : Nat) (f : ImgData → ImgData) (j : Nat) :
    (h.modify i f).get j = if j = i then (h.get i).map f else h.get j := by
  unfold Heap.modify
  cases hg : h.get i with
  | none =>
    by_cases hj : j = i
    · subst hj
      simp [hg]
    · simp [hj]
  | some d =>
    rw [Heap.get_set]
    by_cases hj : j = i <;> simp [hj, hg]

theorem Heap.get_modify_ne (h : Heap) (i : Nat) (f : ImgData → ImgData) {j : Nat}
    (hj : j ≠ i) : (h.modify i f).get j = h.get j := by
  rw [Heap.get_modify, if_neg hj]

theorem keysBound_modify (h : Heap) (i : Nat) (f : ImgData → ImgData)
    (hb : KeysBoundP h) : KeysBoundP (h.modify i f) := by
  unfold Heap.modify
  cases h.get i with
  | none => exact hb
  | some d =>
    intro p hp
    rw [Heap.set_nextId]
    obtain ⟨q, hq, hqe⟩ := List.mem_map.mp hp
    have h2 := hb q hq
    subst hqe
    by_cases hqi : q.1 = i
    · rw [if_pos hqi]
      exact hqi ▸ h2
    · rwa [if_neg hqi]

theorem keysBound_allocP {h : Heap} (hb : KeysBoundP h) (d : ImgData) :
    KeysBoundP (h.alloc d).2 := by
  intro p hp
  rcases List.mem_cons.mp hp with hp | hp
  · subst hp; exact Nat.lt_succ_self _
  · exact Nat.lt_succ_of_lt (hb p hp)

theorem getP_lt {h : Heap} (hb : KeysBoundP h) {j : Nat} {d : ImgData}
    (hj : h.get j = some d) : j < h.nextId :=
  hb (j, d) (lookup_eq_some_mem hj)

theorem rngTick_heap (st : SessionState) : (rngTick st).heap = st.heap := rfl

theorem rngTick_detectorImages (st : SessionState) :
    (rngTick st).detectorImages = st.detectorImages := rfl

theorem rngTick_blankImageCache (st : SessionState) :
    (rngTick st).blankImageCache = st.blankImageCache := rfl

theorem NoiseInv_rngTick {env : Env} {st : SessionState} (h : NoiseInv env st) :
    NoiseInv env (rngTick st) := h

theorem cachePresentB_iff (st : SessionState) :
    cachePresentB st = true ↔ CachePresentP st := by
  simp [cachePresentB, CachePresentP, List.all_eq_true]

theorem dictCacheDisjointB_iff (st : SessionState) :
    dictCacheDisjointB st = true ↔ DisjointP st := by
  simp [dictCacheDisjointB, DisjointP, List.all_eq_true]

theorem templatesCleanB_iff (st : SessionState) :
    templatesCleanB st = true ↔ TemplatesCleanP st := by
  simp only [templatesCleanB, TemplatesCleanP, List.all_eq_true]
  refine forall_congr' fun c => forall_congr' fun _ => ?_
  cases h : st.heap.get c.2 <;> simp [h]

theorem noiseCountOKB_iff (env : Env) (st : SessionState) :
    noiseCountOKB env st = true ↔ NoiseCountP env st := by
  simp only [noiseCountOKB, NoiseCountP, List.all_eq_true]
  refine forall_congr' fun q => forall_congr' fun _ => ?_
  cases h : st.heap.get q.2 <;> simp [h]

theorem noiseInvB_iff (env : Env) (st : SessionState) :
    noiseInvB env st = true ↔ NoiseInv env st := by
  simp only [noiseInvB, Bool.and_eq_true, heapKeysBoundB_iff, cachePresentB_iff,
    dictCacheDisjointB_iff, templatesCleanB_iff, noiseCountOKB_iff, NoiseInv,
    KeysBoundP, and_assoc]

theorem dictIds_lt {env : Env} {st : SessionState} (h : NoiseInv env st) :
    ∀ q ∈ st.detectorImages, q.2 < st.heap.nextId := by
  intro q hq
  obtain ⟨d, hd, _⟩ := h.2.2.2.2 q hq
  exact getP_lt h.1 hd

theorem cacheIds_lt {env : Env} {st : SessionState} (h : NoiseInv env st) :
    ∀ c ∈ st.blankImageCache, c.2 < st.heap.nextId := by
  intro c hc
  obtain ⟨d, hd, _⟩ := h.2.2.2.1 c hc
  exact getP_lt h.1 hd

theorem accumulate_eq (st : SessionState) (name : String) :
    accumulate st name =
      match st.detectorImages.lookup name with
      | some iid =>
        { rngTick st with
          heap := st.heap.modify iid (fun d => { d with drawCount := d.drawCount + 1 }) }
      | none => rngTick st := by
  unfold accumulate
  dsimp only
  rw [rngTick_detectorImages]
  cases st.detectorImages.lookup name <;> rfl

theorem NoiseInv_accumulate {env : Env} {st : SessionState} (name : String)
    (h : NoiseInv env st) : NoiseInv env (accumulate st name) := by
  rw [accumulate_eq]
  cases hlook : st.detectorImages.lookup name with
  | none => exact h
  | some iid =>
    have hmem := lookup_eq_some_mem hlook
    obtain ⟨hkb, hcp, hdj, htc, hnc⟩ := h
    have hiidne : ∀ c ∈ st.blankImageCache, iid ≠ c.2 := fun c hc => hdj _ hmem c hc
    refine ⟨keysBound_modify _ _ _ hkb, ?_, hdj, ?_, ?_⟩
    · intro c hc
      rw [Heap.get_modify_ne _ _ _ (fun he => hiidne c hc he.symm)]
      exact hcp c hc
    · intro c hc
      rw [Heap.get_modify_ne _ _ _ (fun he => hiidne c hc he.symm)]
      exact htc c hc
    · intro q hq
      obtain ⟨d, hd, hdc⟩ := hnc q hq
      by_cases hqi : q.2 = iid
      · obtain ⟨dd, hdd, hddc⟩ := hnc (name, iid) hmem
        refine ⟨{ dd with drawCount := dd.drawCount + 1 }, ?_, hddc⟩
        rw [Heap.get_modify, if_pos hqi, show st.heap.get iid = some dd from hdd]
        rfl
      · rw [Heap.get_modify_ne _ _ _ hqi]
        exact ⟨d, hd, hdc⟩

theorem blankImage_eq (st : SessionState) (det : GalSimDetector) :
    blankImage st det =
      match st.blankImageCache.lookup det.name with
      | some tid =>
        (st.heap.nextId,
         { st with heap := (st.heap.alloc ((st.heap.get tid).getD (blankData det))).2 })
      | none =>
        (st.heap.nextId + 1,
         { st with
             heap := (((st.heap.alloc (blankData det)).2).alloc (blankData det)).2
             blankImageCache := st.blankImageCache ++ [(det.name, st.heap.nextId)] }) := by
  unfold blankImage
  cases st.blankImageCache.lookup det.name <;> rfl

theorem blankImage_spec {env : Env} {st : SessionState} {det : GalSimDetector}
    {nid : Nat} {st2 : SessionState} (hInv : NoiseInv env st)
    (hbi : blankImage st det = (nid, st2)) :
    st2.detectorImages = st.detectorImages ∧
    st2.rng = st.rng ∧
    KeysBoundP st2.heap ∧
    st.heap.nextId ≤ nid ∧ nid < st2.heap.nextId ∧
    (∀ j, j < st.heap.nextId → st2.heap.get j = st.heap.get j) ∧
    (∃ d0, st2.heap.get nid = some d0 ∧ d0.noiseCount = 0) ∧
    CachePresentP st2 ∧ TemplatesCleanP st2 ∧
    (∀ c ∈ st2.blankImageCache, c.2 ≠ nid) ∧
    DisjointP st2 := by
  obtain ⟨hkb, hcp, hdj, htc, hnc⟩ := hInv
  have hdlt : ∀ q ∈ st.detectorImages, q.2 < st.heap.nextId :=
    dictIds_lt ⟨hkb, hcp, hdj, htc, hnc⟩
  have hclt : ∀ c ∈ st.blankImageCache, c.2 < st.heap.nextId :=
    cacheIds_lt ⟨hkb, hcp, hdj, htc, hnc⟩
  rw [blankImage_eq] at hbi
  cases hlookc : st.blankImageCache.lookup det.name with
  | some tid =>
    rw [hlookc] at hbi
    injection hbi with h1 h2
    subst h1
    subst h2
    obtain ⟨dt, hdt, hdtc⟩ := htc (det.name, tid) (lookup_eq_some_mem hlookc)
    have hgetd : st.heap.get tid = some dt := hdt
    refine ⟨rfl, rfl, keysBound_allocP hkb _, le_refl _, ?_, ?_, ?_, ?_, ?_, ?_, hdj⟩
    · rw [Heap.alloc_nextId]
      exact Nat.lt_succ_self _
    · intro j hj
      rw [Heap.get_alloc, if_neg (Nat.ne_of_lt hj)]
    · refine ⟨dt, ?_, hdtc⟩
      rw [Heap.get_alloc, if_pos rfl, hgetd]
      rfl
    · intro c hc
      rw [Heap.get_alloc, if_neg (Nat.ne_of_lt (hclt c hc))]
      exact hcp c hc
    · intro c hc
      obtain ⟨d, hd, hdc⟩ := htc c hc
      refine ⟨d, ?_, hdc⟩
      rw [Heap.get_alloc, if_neg (Nat.ne_of_lt (hclt c hc))]
      exact hd
    · intro c hc
      exact Nat.ne_of_lt (hclt c hc)
  | none =>
    rw [hlookc] at hbi
    injection hbi with h1 h2
    subst h1
    subst h2
    have hget2 : ∀ j, j < st.heap.nextId →
        (((st.heap.alloc (blankData det)).2).alloc (blankData det)).2.get j =
          st.heap.get j := by
      intro j hj
      rw [Heap.get_alloc, Heap.alloc_nextId,
        if_neg (Nat.ne_of_lt (Nat.lt_succ_of_lt hj)),
        Heap.get_alloc, if_neg (Nat.ne_of_lt hj)]
    have hgettid :
        (((st.heap.alloc (blankData det)).2).alloc (blankData det)).2.get st.heap.nextId =
          some (blankData det) := by
      rw [Heap.get_alloc, Heap.alloc_nextId,
        if_neg (Nat.ne_of_lt (Nat.lt_succ_self _)),
        Heap.get_alloc, if_pos rfl]
    refine ⟨rfl, rfl, keysBound_allocP (keysBound_allocP hkb _) _, Nat.le_succ _, ?_,
      hget2, ?_, ?_, ?_, ?_, ?_⟩
    · rw [Heap.alloc_nextId, Heap.alloc_nextId]
      exact Nat.lt_succ_self _
    · refine ⟨blankData det, ?_, rfl⟩
      rw [Heap.get_alloc, Heap.alloc_nextId, if_pos rfl]
    · intro c hc
      rcases List.mem_append.mp hc with hc | hc
      · rw [hget2 c.2 (hclt c hc)]
        exact hcp c hc
      · rw [List.mem_singleton.mp hc]
        rw [hgettid]
        rfl
    · intro c hc
      rcases List.mem_append.mp hc with hc | hc
      · obtain ⟨d, hd, hdc⟩ := htc c hc
        refine ⟨d, ?_, hdc⟩
        rw [hget2 c.2 (hclt c hc)]
        exact hd
      · rw [List.mem_singleton.mp hc]
        exact ⟨blankData det, hgettid, rfl⟩
    · intro c hc
      rcases List.mem_append.mp hc with hc | hc
      · exact Nat.ne_of_lt (Nat.lt_succ_of_lt (hclt c hc))
      · rw [List.mem_singleton.mp hc]
        exact Nat.ne_of_lt (Nat.lt_succ_self _)
    · intro q hq c hc
      rcases List.mem_append.mp hc with hc | hc
      · exact hdj q hq c hc
      · rw [List.mem_singleton.mp hc]
        exact Nat.ne_of_lt (hdlt q hq)

theorem initImage_eq (env : Env) (st : SessionState) (det : GalSimDetector)
    (bp : String) :
    initImage env st det bp =
      match st.detectorImages.lookup (getFileName det bp) with
      | some _ => st
      | none =>
        let a := blankImage st det
        let stm := { a.2 with
          detectorImages := a.2.detectorImages ++ [(getFileName det bp, a.1)] }
        if env.noiseConfigured then { stm with heap := applyNoise stm.heap a.1 }
        else stm := by
  unfold initImage
  dsimp only

theorem NoiseInv_initImage {env : Env} {st : SessionState} (det : GalSimDetector)
    (bp : String) (hInv : NoiseInv env st) :
    NoiseInv env (initImage env st det bp) := by
  rw [initImage_eq]
  cases hlook : st.detectorImages.lookup (getFileName det bp) with
  | some iid => exact hInv
  | none =>
    rcases hbi : blankImage st det with ⟨nid, stB⟩
    obtain ⟨hdictEq, _hrngEq, hkb2, hnidGe, _hnidLt, holdget, hd0ex, hcp2, htc2,
      hcne, hdj2⟩ := blankImage_spec hInv hbi
    obtain ⟨d0, hd0, hd0c⟩ := hd0ex
    have hdlt : ∀ q ∈ st.detectorImages, q.2 < st.heap.nextId := dictIds_lt hInv
    have hnc : NoiseCountP env st := hInv.2.2.2.2
    have hmemdict : ∀ q : String × Nat,
        q ∈ stB.detectorImages ++ [(getFileName det bp, nid)] →
        q ∈ st.detectorImages ∨ q = (getFileName det bp, nid) := by
      intro q hq
      rcases List.mem_append.mp hq with hq | hq
      · exact Or.inl (hdictEq ▸ hq)
      · exact Or.inr (List.mem_singleton.mp hq)
    have holdOK : ∀ q ∈ st.detectorImages, ∃ d, stB.heap.get q.2 = some d ∧
        d.noiseCount = (if env.noiseConfigured then 1 else 0) := by
      intro q hq
      obtain ⟨d, hd, hdc⟩ := hnc q hq
      exact ⟨d, (holdget q.2 (hdlt q hq)) ▸ hd, hdc⟩
    have hqne : ∀ q ∈ st.detectorImages, q.2 ≠ nid := by
      intro q hq
      exact Nat.ne_of_lt (Nat.lt_of_lt_of_le (hdlt q hq) hnidGe)
    dsimp only
    by_cases hn : env.noiseConfigured
    · rw [if_pos hn]
      refine ⟨?_, ?_, ?_, ?_, ?_⟩
      · show KeysBoundP (applyNoise stB.heap nid)
        unfold applyNoise
        exact keysBound_modify _ _ _ hkb2
      · intro c hc
        dsimp only at hc ⊢
        show ((applyNoise stB.heap nid).get c.2).isSome = true
        unfold applyNoise
        rw [Heap.get_modify_ne _ _ _ (hcne c hc)]
        exact hcp2 c hc
      · intro q hq c hc
        dsimp only at hq hc ⊢
        rcases hmemdict q hq with hq2 | hq2
        · exact hdj2 q (hdictEq ▸ hq2) c hc
        · rw [hq2]
          exact fun he => hcne c hc he.symm
      · intro c hc
        dsimp only at hc ⊢
        obtain ⟨d, hd, hdc⟩ := htc2 c hc
        refine ⟨d, ?_, hdc⟩
        show (applyNoise stB.heap nid).get c.2 = some d
        unfold applyNoise
        rw [Heap.get_modify_ne _ _ _ (hcne c hc)]
        exact hd
      · intro q hq
        dsimp only at hq ⊢
        rcases hmemdict q hq with hq2 | hq2
        · obtain ⟨d, hd, hdc⟩ := holdOK q hq2
          refine ⟨d, ?_, hdc⟩
          show (applyNoise stB.heap nid).get q.2 = some d
          unfold applyNoise
          rw [Heap.get_modify_ne _ _ _ (hqne q hq2)]
          exact hd
        · refine ⟨{ d0 with noiseCount := d0.noiseCount + 1 }, ?_, ?_⟩
          · rw [hq2]
            show (applyNoise stB.heap nid).get nid = _
            unfold applyNoise
            rw [Heap.get_modify, if_pos rfl, hd0]
            rfl
          · rw [hd0c, if_pos hn]
    · rw [if_neg hn]
      refine ⟨hkb2, ?_, ?_, ?_, ?_⟩
      · intro c hc
        dsimp only at hc ⊢
        exact hcp2 c hc
      · intro q hq c hc
        dsimp only at hq hc ⊢
        rcases hmemdict q hq with hq2 | hq2
        · exact hdj2 q (hdictEq ▸ hq2) c hc
        · rw [hq2]
          exact fun he => hcne c hc he.symm
      · intro c hc
        dsimp only at hc ⊢
        exact htc2 c hc
      · intro q hq
        dsimp only at hq ⊢
        rcases hmemdict q hq with hq2 | hq2
        · exact holdOK q hq2
        · refine ⟨d0, ?_, ?_⟩
          · rw [hq2]
            exact hd0
          · rw [hd0c, if_neg hn]

theorem NoiseInv_initImagesForDet {env : Env} (det : GalSimDetector) :
    ∀ (l : List String) (st : SessionState), NoiseInv env st →
      NoiseInv env (l.foldl (fun s bp => initImage env s det bp) st) := by
  intro l
  induction l with
  | nil => exact fun st h => h
  | cons bp rest ih =>
    intro st h
    exact ih _ (NoiseInv_initImage det bp h)

theorem NoiseInv_initAllImages {env : Env} :
    ∀ (dets : List GalSimDetector) (st : SessionState), NoiseInv env st →
      NoiseInv env (initAllImages env st dets) := by
  intro dets
  induction dets with
  | nil => exact fun st h => h
  | cons det rest ih =>
    intro st h
    exact ih _ (NoiseInv_initImagesForDet det env.bandpassNames st h)

theorem NoiseInv_drawOnDetectors {env : Env} (o : GsObject) (bp : String) :
    ∀ (dets : List GalSimDetector) (st : SessionState), NoiseInv env st →
      NoiseInv env (drawOnDetectors o bp dets st).2 := by
  intro dets
  induction dets with
  | nil => exact fun st h => h
  | cons det rest ih =>
    intro st h
    unfold drawOnDetectors
    cases fluxLookup o bp with
    | error e => exact h
    | ok f => exact ih _ (NoiseInv_accumulate _ h)

theorem NoiseInv_drawOnBandpasses {env : Env} (o : GsObject)
    (dets : List GalSimDetector) :
    ∀ (bps : List String) (st : SessionState), NoiseInv env st →
      NoiseInv env (drawOnBandpasses o bps dets st).2 := by
  intro bps
  induction bps with
  | nil => exact fun st h => h
  | cons bp rest ih =>
    intro st h
    unfold drawOnBandpasses
    rcases hdd : drawOnDetectors o bp dets st with ⟨r, st1⟩
    have h1 : NoiseInv env st1 := by
      have := NoiseInv_drawOnDetectors o bp dets st h
      rw [hdd] at this
      exact this
    cases r with
    | error e => exact h1
    | ok u => exact ih _ h1

theorem findAll_snd (env : Env) (st : SessionState) (o : GsObject) :
    (findAllDetectors env st o).2 = st ∨ (findAllDetectors env st o).2 = rngTick st := by
  unfold findAllDetectors
  cases createCenteredObject env.psfPresent o with
  | error e => exact Or.inl rfl
  | ok op =>
    cases op with
    | none => exact Or.inl rfl
    | some prof =>
      dsimp only
      split
      · split
        · exact Or.inr rfl
        · exact Or.inr rfl
      · exact Or.inr rfl

theorem overlapTest_iff (amin amax bmin bmax : ℚ) :
    overlapTest amin amax bmin bmax = true ↔
      ((bmin < amax ∧ amax < bmax) ∨ (bmin < amin ∧ amin < bmax) ∨
       (amin < bmin ∧ bmax < amax)) := by
  unfold overlapTest
  split_ifs with h1 h2 h3
  · simp only [true_iff]
    exact Or.inl h1
  · simp only [true_iff]
    exact Or.inr (Or.inl h2)
  · simp only [true_iff]
    exact Or.inr (Or.inr h3)
  · simp only [false_iff]
    rintro (⟨u, v⟩ | ⟨u, v⟩ | ⟨u, v⟩)
    · exact h1 ⟨u, v⟩
    · exact h2 ⟨u, v⟩
    · exact h3 ⟨u, v⟩

/- ## Claim theorems -/

theorem NoiseInv_drawObject {env : Env} {st : SessionState} (o : GsObject)
    (h : NoiseInv env st) : NoiseInv env (drawObject env st o).2 := by
  unfold drawObject
  rcases hf : findAllDetectors env st o with ⟨r, st1⟩
  have h1 : NoiseInv env st1 := by
    rcases findAll_snd env st o with h2 | h2 <;> rw [hf] at h2 <;> dsimp only at h2
    · rw [h2]
      exact h
    · rw [h2]
      exact NoiseInv_rngTick h
  cases r with
  | error e => exact h1
  | ok op =>
    cases op with
    | none => exact h1
    | some triple =>
      obtain ⟨outStr, dets, prof⟩ := triple
      dsimp only
      split
      · exact h1
      · have h2 := NoiseInv_initAllImages dets st1 h1
        rcases hdb : drawOnBandpasses o env.bandpassNames dets
            (initAllImages env st1 dets) with ⟨r2, st3⟩
        have h3 : NoiseInv env st3 := by
          have h4 := NoiseInv_drawOnBandpasses o dets env.bandpassNames _ h2
          rw [hdb] at h4
          exact h4
        cases r2 with
        | error e => exact h3
        | ok u => exact h3

/-- C1: the claim says an object with an unsupported shape kind is
skipped non-fatally and the batch continues; in the code
findAllDetectors executes a bare `return` (None) for such an object, and
drawObject's three-way tuple unpacking of that None raises TypeError, so
this theorem exhibits the failing input of the code_bug: the
detector-illumination search yields None (no triple) and drawObject
raises instead of skipping. -/
theorem C1_unsupported_shape_raises :
    findAllDetectors envW stEmpty objC1 = (.ok none, stEmpty) ∧
    drawObject envW stEmpty objC1 = (.error .typeError, stEmpty) :=
  ⟨rfl, rfl⟩

/-- C2 counterexample: the object interval [0,10] and the detector
interval [5,10] overlap on [5,10] and satisfy the claim's symmetric
predicate (the object interval strictly contains the detector's left
endpoint 5), yet the code's three-branch test rejects the pair, because
the code only tests the object's endpoints against the open detector
interval plus containment of the detector by the object. -/
theorem C2_shared_endpoint_missed :
    overlapTest 0 10 5 10 = false ∧ specIntervalOverlap 0 10 5 10 := by
  exact ⟨rfl, by decide⟩

/-- C2 amended: in the broad-phase pass a detector is kept exactly when,
on both axes, the open detector interval strictly contains the object's
upper endpoint or its lower endpoint, or the object's interval strictly
contains the detector's interval; a detector failing this on either axis
is discarded from the candidate set. -/
theorem C2_broad_phase_characterisation (dets : List GalSimDetector)
    (xmin xmax ymin ymax : ℚ) (d : GalSimDetector) :
    d ∈ viableDetectors dets xmin xmax ymin ymax ↔
      d ∈ dets ∧
      ((d.xMinArcsec < xmax ∧ xmax < d.xMaxArcsec) ∨
       (d.xMinArcsec < xmin ∧ xmin < d.xMaxArcsec) ∨
       (xmin < d.xMinArcsec ∧ d.xMaxArcsec < xmax)) ∧
      ((d.yMinArcsec < ymax ∧ ymax < d.yMaxArcsec) ∨
       (d.yMinArcsec < ymin ∧ ymin < d.yMaxArcsec) ∨
       (ymin < d.yMinArcsec ∧ d.yMaxArcsec < ymax)) := by
  simp [viableDetectors, List.mem_filter, Bool.and_eq_true, overlapTest_iff,
    and_assoc]

/-- C3: the claim says both axes of the coarse bounding box are symmetric
about the object's pupil position; for a test image with the standard
galsim bounds 1..100 on both axes and the object at the pupil origin,
the x bounds are the symmetric ±5 arcsec, but the y lower bound is
-1/10 (the code reads getYMin() = 1 where the x branch reads getXMax()),
not the -5 that centering requires: the failing input of the code_bug. -/
theorem C3_bbox_y_not_centered :
    bboxXmax imgC3 0 = 5 ∧ bboxXmin imgC3 0 = -5 ∧
    bboxYmax imgC3 0 = 5 ∧ bboxYmin imgC3 0 = -(1 / 10) := by
  with_unfolding_all decide

/-- C4 counterexample: in imgC4 the pixel sampled by the code as
`maxPixel` (image coordinates (getXMax/2, getYMax/2) = (1,1), array entry
[0][0] = 1) is not the peak pixel (2000 at [1][1]); the array entry
[0][1] = 1/200 exceeds 0.1% of the central pixel, so the code marks it
active, but it does not exceed 0.1% of the peak pixel's flux required by
the claim. -/
theorem C4_central_not_peak :
    (0, 1) ∈ activePixels imgC4 ∧ (0, 1) ∉ specActivePixels imgC4 := by
  with_unfolding_all decide

theorem findAll_ok_some (env : Env) (st : SessionState) (o : GsObject)
    {t : Option String × List GalSimDetector × GSProfile} {st1 : SessionState}
    (hfind : findAllDetectors env st o = (.ok (some t), st1)) :
    st1 = rngTick st := by
  unfold findAllDetectors at hfind
  cases hc : createCenteredObject env.psfPresent o with
  | error e =>
    rw [hc] at hfind
    simp at hfind
  | ok op =>
    cases op with
    | none =>
      rw [hc] at hfind
      simp at hfind
    | some prof =>
      rw [hc] at hfind
      dsimp only at hfind
      split at hfind
      · split at hfind
        · simp at hfind
        · injection hfind with h1 h2
          exact h2.symm
      · injection hfind with h1 h2
        exact h2.symm

theorem mem_rowWhere {row : List ℚ} {t : ℚ} {j : Nat} :
    j ∈ rowWhere row t ↔ j < row.length ∧ row.getD j 0 > t := by
  simp [rowWhere, List.mem_filter, List.mem_range]

theorem mem_npWhere {arr : List (List ℚ)} {t : ℚ} {i j : Nat} :
    (i, j) ∈ npWhere arr t ↔
      i < arr.length ∧ j < (arr.getD i []).length ∧ (arr.getD i []).getD j 0 > t := by
  constructor
  · intro h
    obtain ⟨a, ha, hm⟩ := List.mem_flatMap.mp h
    obtain ⟨b, hb, hbe⟩ := List.mem_map.mp hm
    obtain ⟨ha1, hb1⟩ := Prod.mk.injEq _ _ _ _ ▸ hbe
    subst ha1
    subst hb1
    exact ⟨List.mem_range.mp ha, (mem_rowWhere.mp hb).1, (mem_rowWhere.mp hb).2⟩
  · rintro ⟨hi, hj, ht⟩
    refine List.mem_flatMap.mpr ⟨i, List.mem_range.mpr hi, ?_⟩
    exact List.mem_map.mpr ⟨j, mem_rowWhere.mpr ⟨hj, ht⟩, rfl⟩

theorem foldl_min_le_init (l : List Nat) (a : Nat) : l.foldl Nat.min a ≤ a := by
  induction l generalizing a with
  | nil => exact le_refl a
  | cons x t ih => exact le_trans (ih (Nat.min a x)) (Nat.min_le_left a x)

theorem foldl_min_le_mem (l : List Nat) (a : Nat) : ∀ x ∈ l, l.foldl Nat.min a ≤ x := by
  induction l generalizing a with
  | nil =>
    intro x hx
    cases hx
  | cons y t ih =>
    intro x hx
    rcases List.mem_cons.mp hx with hxy | hx
    · subst hxy
      exact le_trans (foldl_min_le_init t _) (Nat.min_le_right a x)
    · exact ih _ x hx

theorem foldl_min_mem (l : List Nat) (a : Nat) : l.foldl Nat.min a ∈ a :: l := by
  induction l generalizing a with
  | nil => exact List.mem_singleton.mpr rfl
  | cons x t ih =>
    rw [List.foldl_cons]
    rcases List.mem_cons.mp (ih (Nat.min a x)) with h | h
    · have hm : Nat.min a x = a ∨ Nat.min a x = x := by
        unfold Nat.min
        exact min_choice a x
      rcases hm with hm | hm
      · rw [h, hm]
        exact List.mem_cons_self _ _
      · rw [h, hm]
        exact List.mem_cons_of_mem _ (List.mem_cons_self _ _)
    · exact List.mem_cons_of_mem _ (List.mem_cons_of_mem _ h)

theorem foldl_max_ge_init (l : List Nat) (a : Nat) : a ≤ l.foldl Nat.max a := by
  induction l generalizing a with
  | nil => exact le_refl a
  | cons x t ih => exact le_trans (Nat.le_max_left a x) (ih (Nat.max a x))

theorem foldl_max_ge_mem (l : List Nat) (a : Nat) : ∀ x ∈ l, x ≤ l.foldl Nat.max a := by
  induction l generalizing a with
  | nil =>
    intro x hx
    cases hx
  | cons y t ih =>
    intro x hx
    rcases List.mem_cons.mp hx with hxy | hx
    · subst hxy
      exact le_trans (Nat.le_max_right a x) (foldl_max_ge_init t _)
    · exact ih _ x hx

theorem foldl_max_mem (l : List Nat) (a : Nat) : l.foldl Nat.max a ∈ a :: l := by
  induction l generalizing a with
  | nil => exact List.mem_singleton.mpr rfl
  | cons x t ih =>
    rw [List.foldl_cons]
    rcases List.mem_cons.mp (ih (Nat.max a x)) with h | h
    · have hm : Nat.max a x = a ∨ Nat.max a x = x := by
        unfold Nat.max
        exact max_choice a x
      rcases hm with hm | hm
      · rw [h, hm]
        exact List.mem_cons_self _ _
      · rw [h, hm]
        exact List.mem_cons_of_mem _ (List.mem_cons_self _ _)
    · exact List.mem_cons_of_mem _ (List.mem_cons_of_mem _ h)

theorem listMinD_le {l : List Nat} {x : Nat} (hx : x ∈ l) : listMinD l ≤ x := by
  cases l with
  | nil => cases hx
  | cons a t =>
    rcases List.mem_cons.mp hx with hxa | hx
    · subst hxa
      exact foldl_min_le_init t x
    · exact foldl_min_le_mem t a x hx

theorem listMinD_mem {l : List Nat} (h : l ≠ []) : listMinD l ∈ l := by
  cases l with
  | nil => exact absurd rfl h
  | cons a t => exact foldl_min_mem t a

theorem listMaxD_ge {l : List Nat} {x : Nat} (hx : x ∈ l) : x ≤ listMaxD l := by
  cases l with
  | nil => cases hx
  | cons a t =>
    rcases List.mem_cons.mp hx with hxa | hx
    · subst hxa
      exact foldl_max_ge_init t x
    · exact foldl_max_ge_mem t a x hx

theorem listMaxD_mem {l : List Nat} (h : l ≠ []) : listMaxD l ∈ l := by
  cases l with
  | nil => exact absurd rfl h
  | cons a t => exact foldl_max_mem t a

theorem pxToArcsecX_mono (img : TestImage) (xP : ℚ) {i i2 : Nat} (h : i ≤ i2) :
    pxToArcsecX img xP i ≤ pxToArcsecX img xP i2 := by
  unfold pxToArcsecX
  have h1 : ((i : ℤ) - Int.fdiv img.xMaxB 2) ≤ ((i2 : ℤ) - Int.fdiv img.xMaxB 2) := by
    omega
  have h2 : ((((i : ℤ) - Int.fdiv img.xMaxB 2 : ℤ)) : ℚ) ≤
      ((((i2 : ℤ) - Int.fdiv img.xMaxB 2 : ℤ)) : ℚ) := by
    exact_mod_cast h1
  have h3 : (0 : ℚ) ≤ testScale := by
    norm_num [testScale]
  nlinarith

theorem pxToArcsecY_mono (img : TestImage) (yP : ℚ) {j j2 : Nat} (h : j ≤ j2) :
    pxToArcsecY img yP j ≤ pxToArcsecY img yP j2 := by
  unfold pxToArcsecY
  have h1 : ((j : ℤ) - Int.fdiv img.yMaxB 2) ≤ ((j2 : ℤ) - Int.fdiv img.yMaxB 2) := by
    omega
  have h2 : ((((j : ℤ) - Int.fdiv img.yMaxB 2 : ℤ)) : ℚ) ≤
      ((((j2 : ℤ) - Int.fdiv img.yMaxB 2 : ℤ)) : ℚ) := by
    exact_mod_cast h1
  have h3 : (0 : ℚ) ≤ testScale := by
    norm_num [testScale]
  nlinarith

/-- C4 amended: in the narrow phase the set of active pixels consists
exactly of those test-image array entries whose flux exceeds 0.1% of the
pixel the code samples as `maxPixel` - the central pixel at image
coordinates (getXMax()/2, getYMax()/2), not the peak pixel - and the
tightened bounding box is exactly the extent of those active pixels'
coordinates, scaled by the test pixel scale and re-centered on the
object's pupil position: every active pixel's scaled, re-centered
coordinate lies in the recomputed [min,max] range on each axis and both
range ends are attained by active pixels. -/
theorem C4_narrow_phase_box (img : TestImage) (xP yP : ℚ)
    (hne : activePixels img ≠ []) :
    (∀ i j : Nat, (i, j) ∈ activePixels img ↔
      i < img.arr.length ∧ j < (img.arr.getD i []).length ∧
      (img.arr.getD i []).getD j 0 > maxPixel img * (1 / 1000)) ∧
    (∀ p ∈ activePixels img,
      narrowXmin img xP ≤ pxToArcsecX img xP p.1 ∧
      pxToArcsecX img xP p.1 ≤ narrowXmax img xP ∧
      narrowYmin img yP ≤ pxToArcsecY img yP p.2 ∧
      pxToArcsecY img yP p.2 ≤ narrowYmax img yP) ∧
    (∃ p ∈ activePixels img, pxToArcsecX img xP p.1 = narrowXmin img xP) ∧
    (∃ p ∈ activePixels img, pxToArcsecX img xP p.1 = narrowXmax img xP) ∧
    (∃ p ∈ activePixels img, pxToArcsecY img yP p.2 = narrowYmin img yP) ∧
    (∃ p ∈ activePixels img, pxToArcsecY img yP p.2 = narrowYmax img yP) := by
  have hxs : (activePixels img).map Prod.fst ≠ [] := by
    simpa using hne
  have hys : (activePixels img).map Prod.snd ≠ [] := by
    simpa using hne
  refine ⟨?_, ?_, ?_, ?_, ?_, ?_⟩
  · intro i j
    exact mem_npWhere
  · intro p hp
    have hpx : p.1 ∈ (activePixels img).map Prod.fst := List.mem_map_of_mem _ hp
    have hpy : p.2 ∈ (activePixels img).map Prod.snd := List.mem_map_of_mem _ hp
    exact ⟨pxToArcsecX_mono img xP (listMinD_le hpx),
      pxToArcsecX_mono img xP (listMaxD_ge hpx),
      pxToArcsecY_mono img yP (listMinD_le hpy),
      pxToArcsecY_mono img yP (listMaxD_ge hpy)⟩
  · obtain ⟨p, hp, hpe⟩ := List.mem_map.mp (listMinD_mem hxs)
    exact ⟨p, hp, by rw [narrowXmin, hpe]⟩
  · obtain ⟨p, hp, hpe⟩ := List.mem_map.mp (listMaxD_mem hxs)
    exact ⟨p, hp, by rw [narrowXmax, hpe]⟩
  · obtain ⟨p, hp, hpe⟩ := List.mem_map.mp (listMinD_mem hys)
    exact ⟨p, hp, by rw [narrowYmin, hpe]⟩
  · obtain ⟨p, hp, hpe⟩ := List.mem_map.mp (listMaxD_mem hys)
    exact ⟨p, hp, by rw [narrowYmax, hpe]⟩

/-- C4 witness: the amended statement at the concrete image imgC4 with
the object at the pupil origin. -/
theorem C4_narrow_phase_box_witness :
    (∀ i j : Nat, (i, j) ∈ activePixels imgC4 ↔
      i < imgC4.arr.length ∧ j < (imgC4.arr.getD i []).length ∧
      (imgC4.arr.getD i []).getD j 0 > maxPixel imgC4 * (1 / 1000)) ∧
    (∀ p ∈ activePixels imgC4,
      narrowXmin imgC4 0 ≤ pxToArcsecX imgC4 0 p.1 ∧
      pxToArcsecX imgC4 0 p.1 ≤ narrowXmax imgC4 0 ∧
      narrowYmin imgC4 0 ≤ pxToArcsecY imgC4 0 p.2 ∧
      pxToArcsecY imgC4 0 p.2 ≤ narrowYmax imgC4 0) ∧
    (∃ p ∈ activePixels imgC4, pxToArcsecX imgC4 0 p.1 = narrowXmin imgC4 0) ∧
    (∃ p ∈ activePixels imgC4, pxToArcsecX imgC4 0 p.1 = narrowXmax imgC4 0) ∧
    (∃ p ∈ activePixels imgC4, pxToArcsecY imgC4 0 p.2 = narrowYmin imgC4 0) ∧
    (∃ p ∈ activePixels imgC4, pxToArcsecY imgC4 0 p.2 = narrowYmax imgC4 0) :=
  C4_narrow_phase_box imgC4 0 0 (by with_unfolding_all decide)

/-- C5: the noise/background collaborator is applied to a
(detector, bandpass) key's composite image exactly once, at the moment
the composite image is first created, and never re-applied afterwards:
the session invariant - every composite image in the cache carries
exactly one noise application when a noiseWrapper is configured (and
none otherwise), and the cached blank templates carry none - is
preserved by every drawObject call, whatever the object and whether the
call succeeds or raises; images created during the call enter the cache
with exactly one application. -/
theorem C5_noise_once_per_key (env : Env) (st : SessionState) (o : GsObject)
    (h : noiseInvB env st = true) :
    noiseInvB env (drawObject env st o).2 = true := by
  rw [noiseInvB_iff] at h ⊢
  exact NoiseInv_drawObject o h

/-- C5 witness: the invariant holds for the fresh session and is
preserved by drawing objW, which creates and noise-fills the composite
image for (detW, u). -/
theorem C5_noise_once_per_key_witness :
    noiseInvB envW stEmpty = true ∧
    noiseInvB envW (drawObject envW stEmpty objW).2 = true :=
  ⟨by with_unfolding_all decide,
   C5_noise_once_per_key envW stEmpty objW (by with_unfolding_all decide)⟩

theorem string_append_ne_empty {s : String} (t : String) (h : s ≠ "") :
    s ++ t ≠ "" := by
  intro hc
  have h0 : (s ++ t).length = 0 := by rw [hc]; rfl
  rw [String.length_append] at h0
  have hs : s.length = 0 := by omega
  cases s with
  | mk data =>
    cases data with
    | nil => exact h rfl
    | cons c u => simp [String.length] at hs

theorem addName_of_ne {s : String} (hs : s ≠ "") (n : String) :
    addName s n = s ++ "//" ++ n := by
  rw [addName, if_pos hs]

theorem addName_empty (n : String) : addName "" n = n := by
  simp [addName]

theorem foldl_addName_of_ne (t : List String) : ∀ s : String, s ≠ "" →
    t.foldl addName s = s ++ prefixedJoin t := by
  induction t with
  | nil =>
    intro s hs
    simp [prefixedJoin]
  | cons n t ih =>
    intro s hs
    rw [List.foldl_cons, addName_of_ne hs, prefixedJoin,
      ih _ (string_append_ne_empty n (string_append_ne_empty "//" hs))]
    simp [String.append_assoc]

theorem foldJoin_eq (ns : List String) (hne : ∀ n ∈ ns, n ≠ "") :
    ns.foldl addName "" = specJoin ns := by
  cases ns with
  | nil => rfl
  | cons n t =>
    rw [List.foldl_cons, addName_empty, specJoin]
    exact foldl_addName_of_ne t n (hne n (List.mem_cons_self n t))

theorem specJoin_ne_empty {ns : List String} (hne : ∀ n ∈ ns, n ≠ "")
    (h : ns ≠ []) : specJoin ns ≠ "" := by
  cases ns with
  | nil => exact absurd rfl h
  | cons n t =>
    rw [specJoin]
    exact string_append_ne_empty _ (hne n (List.mem_cons_self n t))

theorem acceptLoop_foldl_snd (accept : GalSimDetector → Bool) :
    ∀ (viable : List GalSimDetector) (s0 : String) (l0 : List GalSimDetector),
      (viable.foldl (fun acc dd =>
        if accept dd then (addName acc.1 dd.name, acc.2 ++ [dd]) else acc)
        (s0, l0)).2 = l0 ++ viable.filter accept := by
  intro viable
  induction viable with
  | nil =>
    intro s0 l0
    simp
  | cons dd t ih =>
    intro s0 l0
    rw [List.foldl_cons]
    by_cases ha : accept dd = true
    · rw [if_pos ha, ih]
      simp [List.filter_cons, ha]
    · rw [if_neg ha, ih]
      simp [List.filter_cons, ha]

theorem acceptLoop_foldl_fst (accept : GalSimDetector → Bool) :
    ∀ (viable : List GalSimDetector) (s0 : String) (l0 : List GalSimDetector),
      (viable.foldl (fun acc dd =>
        if accept dd then (addName acc.1 dd.name, acc.2 ++ [dd]) else acc)
        (s0, l0)).1 =
      (viable.filter accept).foldl (fun s dd => addName s dd.name) s0 := by
  intro viable
  induction viable with
  | nil =>
    intro s0 l0
    simp
  | cons dd t ih =>
    intro s0 l0
    rw [List.foldl_cons]
    by_cases ha : accept dd = true
    · rw [if_pos ha, ih]
      simp [List.filter_cons, ha]
    · rw [if_neg ha, ih]
      simp [List.filter_cons, ha]

theorem acceptLoop_snd (accept : GalSimDetector → Bool)
    (viable : List GalSimDetector) :
    (acceptLoop accept viable).2 = viable.filter accept := by
  unfold acceptLoop
  rw [acceptLoop_foldl_snd]
  simp

theorem acceptLoop_fst (accept : GalSimDetector → Bool)
    (viable : List GalSimDetector) :
    (acceptLoop accept viable).1 =
      ((viable.filter accept).map GalSimDetector.name).foldl addName "" := by
  unfold acceptLoop
  rw [acceptLoop_foldl_fst, List.foldl_map]

/-- C6 counterexample: the claim says drawObject on an object whose
spectral handle is absent returns with no side effects, the shared
random stream included; but findAllDetectors always renders the coarse
test image with rng=self._rng before drawObject's early return, so the
seeded session's stream has been consumed: for objC6 (sed absent) the
stream state changes. -/
theorem C6_rng_advances :
    objC6.sed = none ∧ (drawObject envW stEmpty objC6).2.rng ≠ stEmpty.rng := by
  constructor
  · rfl
  · with_unfolding_all decide

/-- C6 amended: for an object whose spectral handle is absent or whose
affected-detector set is empty, drawObject returns the locator's output
string immediately and leaves the composite-image cache, the blank-image
cache and the heap of live images unchanged; the only session-state
change of the call is that the shared random stream has been advanced by
the locator's test-image render. -/
theorem C6_early_return_state (env : Env) (st : SessionState) (o : GsObject)
    (outStr : Option String) (dets : List GalSimDetector) (prof : GSProfile)
    (st1 : SessionState)
    (hfind : findAllDetectors env st o = (.ok (some (outStr, dets, prof)), st1))
    (hskip : o.sed = none ∨ dets.length = 0) :
    drawObject env st o = (.ok outStr, st1) ∧
    st1.heap = st.heap ∧ st1.detectorImages = st.detectorImages ∧
    st1.blankImageCache = st.blankImageCache ∧
    st1.rng = st.rng.map (fun n => n + 1) := by
  have hst1 : st1 = rngTick st := findAll_ok_some env st o hfind
  subst hst1
  refine ⟨?_, rfl, rfl, rfl, rfl⟩
  unfold drawObject
  rw [hfind]
  dsimp only
  rw [if_pos hskip]

/-- C6 witness: the amended statement at the concrete fixture. -/
theorem C6_early_return_state_witness :
    drawObject envW stEmpty objC6 = (.ok (some "R_0_0_S_1_1"), rngTick stEmpty) ∧
    (rngTick stEmpty).heap = stEmpty.heap ∧
    (rngTick stEmpty).detectorImages = stEmpty.detectorImages ∧
    (rngTick stEmpty).blankImageCache = stEmpty.blankImageCache ∧
    (rngTick stEmpty).rng = stEmpty.rng.map (fun n => n + 1) :=
  C6_early_return_state envW stEmpty objC6 (some "R_0_0_S_1_1") [detW]
    (drawSersic envW.psfPresent objC6) (rngTick stEmpty)
    (by with_unfolding_all rfl) (Or.inl rfl)

/-- C9: for every object (with detectors whose names are nonempty, as
every real camera provides), the locator's output string is the accepted
detectors' identities joined by '//' in acceptance order, it is the
sentinel None exactly when the affected-detector set is empty - in
particular on the short-circuit path where the test footprint overlaps
no detector's pupil bounding box - and drawObject passes this string
through unchanged whenever it returns. -/
theorem C9_output_identifiers (env : Env) (st : SessionState) (o : GsObject)
    (outStr : Option String) (dets : List GalSimDetector) (prof : GSProfile)
    (st1 : SessionState)
    (hnames : ∀ d ∈ env.detectors, d.name ≠ "")
    (hfind : findAllDetectors env st o = (.ok (some (outStr, dets, prof)), st1)) :
    (outStr = none ↔ dets = []) ∧
    (dets ≠ [] → outStr = some (specJoin (dets.map GalSimDetector.name))) ∧
    (∀ r st2, drawObject env st o = (.ok r, st2) → r = outStr) := by
  have hdraw : ∀ r st2, drawObject env st o = (.ok r, st2) → r = outStr := by
    intro r st2 heq
    unfold drawObject at heq
    rw [hfind] at heq
    dsimp only at heq
    split at heq
    · injection heq with h1 h2
      injection h1 with h1
      exact h1.symm
    · rcases hdb : drawOnBandpasses o env.bandpassNames dets
        (initAllImages env st1 dets) with ⟨r2, st3⟩
      rw [hdb] at heq
      cases r2 with
      | error e => simp at heq
      | ok u =>
        injection heq with h1 h2
        injection h1 with h1
        exact h1.symm
  unfold findAllDetectors at hfind
  cases hc : createCenteredObject env.psfPresent o with
  | error e =>
    rw [hc] at hfind
    simp at hfind
  | ok op =>
    cases op with
    | none =>
      rw [hc] at hfind
      simp at hfind
    | some prof2 =>
      rw [hc] at hfind
      dsimp only at hfind
      split at hfind
      · split at hfind
        · simp at hfind
        · injection hfind with h1 h2
          injection h1 with h1
          injection h1 with h1
          rw [Prod.mk.injEq, Prod.mk.injEq] at h1
          obtain ⟨hstr, hdets, -⟩ := h1
          have hnames2 : ∀ n ∈ (dets.map GalSimDetector.name), n ≠ "" := by
            intro n hn
            obtain ⟨d, hd, hdn⟩ := List.mem_map.mp hn
            have hd2 : d ∈ env.detectors := by
              rw [← hdets] at hd
              rw [acceptLoop_snd] at hd
              have hd3 := List.mem_of_mem_filter hd
              unfold viableDetectors at hd3
              exact List.mem_of_mem_filter hd3
            rw [← hdn]
            exact hnames d hd2
          have hfst : (acceptLoop
              (acceptsDetector (env.renderTest prof2 st.rng) o)
              (viableDetectors env.detectors
                (bboxXmin (env.renderTest prof2 st.rng) o.xPupilArcsec)
                (bboxXmax (env.renderTest prof2 st.rng) o.xPupilArcsec)
                (bboxYmin (env.renderTest prof2 st.rng) o.yPupilArcsec)
                (bboxYmax (env.renderTest prof2 st.rng) o.yPupilArcsec))).1 =
              specJoin (dets.map GalSimDetector.name) := by
            rw [acceptLoop_fst]
            rw [show ((viableDetectors env.detectors
                (bboxXmin (env.renderTest prof2 st.rng) o.xPupilArcsec)
                (bboxXmax (env.renderTest prof2 st.rng) o.xPupilArcsec)
                (bboxYmin (env.renderTest prof2 st.rng) o.yPupilArcsec)
                (bboxYmax (env.renderTest prof2 st.rng) o.yPupilArcsec)).filter
                  (acceptsDetector (env.renderTest prof2 st.rng) o)) = dets by
              rw [← hdets, acceptLoop_snd]]
            exact foldJoin_eq _ hnames2
          rw [hfst] at hstr
          by_cases hd : dets = []
          · have hs : specJoin (dets.map GalSimDetector.name) = "" := by
              rw [hd]
              rfl
            rw [if_pos hs] at hstr
            refine ⟨⟨fun _ => hd, fun _ => hstr.symm⟩, fun hcon => absurd hd hcon,
              hdraw⟩
          · have hnsne : dets.map GalSimDetector.name ≠ [] := by
              simpa using hd
            have hs := specJoin_ne_empty hnames2 hnsne
            rw [if_neg hs] at hstr
            refine ⟨⟨?_, fun h => absurd h hd⟩, fun _ => hstr.symm, hdraw⟩
            intro hnone
            rw [← hstr] at hnone
            cases hnone
      · injection hfind with h1 h2
        injection h1 with h1
        injection h1 with h1
        rw [Prod.mk.injEq, Prod.mk.injEq] at h1
        obtain ⟨hstr, hdets, -⟩ := h1
        refine ⟨?_, ?_, hdraw⟩
        · rw [← hstr, ← hdets]
          simp
        · intro hd
          rw [← hdets] at hd
          exact absurd rfl hd

theorem accumulate_dict (st : SessionState) (name : String) :
    (accumulate st name).detectorImages = st.detectorImages := by
  rw [accumulate_eq]
  cases st.detectorImages.lookup name <;> rfl

theorem drawOnDetectors_dict (o : GsObject) (bp : String) :
    ∀ (dets : List GalSimDetector) (st : SessionState),
      (drawOnDetectors o bp dets st).2.detectorImages = st.detectorImages := by
  intro dets
  induction dets with
  | nil => exact fun st => rfl
  | cons det rest ih =>
    intro st
    unfold drawOnDetectors
    cases fluxLookup o bp with
    | error e => rfl
    | ok f =>
      rw [ih, accumulate_dict]

theorem fluxLookup_miss {o : GsObject} {b : String}
    (h : o.fluxDict.lookup b = none) : fluxLookup o b = .error .runtimeError := by
  unfold fluxLookup
  rw [h]

theorem fluxLookup_error {o : GsObject} {b : String} {e : PyErr}
    (h : fluxLookup o b = .error e) : e = .runtimeError := by
  unfold fluxLookup at h
  split at h
  · cases h
  · injection h with h
    exact h.symm

theorem drawOnDetectors_err {o : GsObject} {b : String}
    {dets : List GalSimDetector} (st : SessionState) (hdets : dets ≠ [])
    (hmiss : fluxLookup o b = .error .runtimeError) :
    drawOnDetectors o b dets st = (.error .runtimeError, st) := by
  cases dets with
  | nil => exact absurd rfl hdets
  | cons det rest =>
    unfold drawOnDetectors
    rw [hmiss]

theorem drawOnDetectors_err_shape {o : GsObject} {bp : String} {e : PyErr} :
    ∀ (dets : List GalSimDetector) (st : SessionState),
      (drawOnDetectors o bp dets st).1 = .error e → e = .runtimeError := by
  intro dets
  induction dets with
  | nil =>
    intro st h
    cases h
  | cons det rest ih =>
    intro st h
    unfold drawOnDetectors at h
    cases hfl : fluxLookup o bp with
    | error e2 =>
      rw [hfl] at h
      injection h with h
      rw [← h]
      exact fluxLookup_error hfl
    | ok f =>
      rw [hfl] at h
      exact ih _ h

theorem drawOnBandpasses_err {o : GsObject} {b : String}
    {dets : List GalSimDetector} (hdets : dets ≠ [])
    (hmiss : o.fluxDict.lookup b = none) :
    ∀ (bps : List String) (st : SessionState), b ∈ bps →
      ∃ st2, drawOnBandpasses o bps dets st = (.error .runtimeError, st2) ∧
        st2.detectorImages = st.detectorImages := by
  intro bps
  induction bps with
  | nil =>
    intro st hb
    cases hb
  | cons bp rest ih =>
    intro st hb
    unfold drawOnBandpasses
    rcases hdd : drawOnDetectors o bp dets st with ⟨r, st1⟩
    have hd1 : st1.detectorImages = st.detectorImages := by
      have h2 := drawOnDetectors_dict o bp dets st
      rw [hdd] at h2
      exact h2
    cases r with
    | error e =>
      have he : e = .runtimeError := by
        apply drawOnDetectors_err_shape dets st
        rw [hdd]
      subst he
      exact ⟨st1, rfl, hd1⟩
    | ok u =>
      rcases List.mem_cons.mp hb with hbb | hbrest
      · subst hbb
        rw [drawOnDetectors_err st hdets (fluxLookup_miss hmiss)] at hdd
        cases hdd
      · obtain ⟨st2, heq, hdict⟩ := ih st1 hbrest
        refine ⟨st2, heq, ?_⟩
        rw [hdict, hd1]

theorem blankImage_dict (st : SessionState) (det : GalSimDetector) :
    (blankImage st det).2.detectorImages = st.detectorImages := by
  rw [blankImage_eq]
  cases st.blankImageCache.lookup det.name <;> rfl

theorem initImage_mono {env : Env} {st : SessionState} {det : GalSimDetector}
    {bp : String} {nm : String}
    (h : (st.detectorImages.lookup nm).isSome = true) :
    (((initImage env st det bp).detectorImages).lookup nm).isSome = true := by
  rw [initImage_eq]
  cases hlook : st.detectorImages.lookup (getFileName det bp) with
  | some iid => exact h
  | none =>
    rcases hbi : blankImage st det with ⟨nid, stB⟩
    have hdB : stB.detectorImages = st.detectorImages := by
      have h2 := blankImage_dict st det
      rw [hbi] at h2
      exact h2
    obtain ⟨v, hv⟩ := Option.isSome_iff_exists.mp h
    dsimp only
    split
    · dsimp only
      rw [hdB, lookup_append_left hv]
      rfl
    · dsimp only
      rw [hdB, lookup_append_left hv]
      rfl

theorem initImage_creates {env : Env} (st : SessionState) (det : GalSimDetector)
    (bp : String) :
    (((initImage env st det bp).detectorImages).lookup (getFileName det bp)).isSome
      = true := by
  rw [initImage_eq]
  cases hlook : st.detectorImages.lookup (getFileName det bp) with
  | some iid => rw [hlook]; rfl
  | none =>
    rcases hbi : blankImage st det with ⟨nid, stB⟩
    have hdB : stB.detectorImages = st.detectorImages := by
      have h2 := blankImage_dict st det
      rw [hbi] at h2
      exact h2
    dsimp only
    split
    · dsimp only
      rw [hdB, lookup_append_right hlook, List.lookup_cons]
      simp
    · dsimp only
      rw [hdB, lookup_append_right hlook, List.lookup_cons]
      simp

theorem initImagesForDet_mono {env : Env} {det : GalSimDetector} {nm : String} :
    ∀ (bps : List String) (st : SessionState),
      (st.detectorImages.lookup nm).isSome = true →
      (((bps.foldl (fun s bp => initImage env s det bp) st).detectorImages).lookup
        nm).isSome = true := by
  intro bps
  induction bps with
  | nil => exact fun st h => h
  | cons bp rest ih =>
    intro st h
    exact ih _ (initImage_mono h)

theorem initImagesForDet_creates {env : Env} {det : GalSimDetector} {bp : String} :
    ∀ (bps : List String) (st : SessionState), bp ∈ bps →
      (((bps.foldl (fun s b => initImage env s det b) st).detectorImages).lookup
        (getFileName det bp)).isSome = true := by
  intro bps
  induction bps with
  | nil =>
    intro st hb
    cases hb
  | cons bp2 rest ih =>
    intro st hb
    rcases List.mem_cons.mp hb with hbb | hbrest
    · subst hbb
      exact initImagesForDet_mono rest _ (initImage_creates st det bp)
    · exact ih _ hbrest

theorem initAllImages_mono {env : Env} {nm : String} :
    ∀ (dets : List GalSimDetector) (st : SessionState),
      (st.detectorImages.lookup nm).isSome = true →
      (((initAllImages env st dets).detectorImages).lookup nm).isSome = true := by
  intro dets
  induction dets with
  | nil => exact fun st h => h
  | cons det rest ih =>
    intro st h
    exact ih _ (initImagesForDet_mono env.bandpassNames st h)

theorem initAllImages_creates {env : Env} {d : GalSimDetector} {bp : String} :
    ∀ (dets : List GalSimDetector) (st : SessionState), d ∈ dets →
      bp ∈ env.bandpassNames →
      (((initAllImages env st dets).detectorImages).lookup
        (getFileName d bp)).isSome = true := by
  intro dets
  induction dets with
  | nil =>
    intro st hd
    cases hd
  | cons det rest ih =>
    intro st hd hbp
    rcases List.mem_cons.mp hd with hdd | hdrest
    · subst hdd
      exact initAllImages_mono rest _ (initImagesForDet_creates env.bandpassNames st hbp)
    · exact ih _ hdrest hbp

theorem countKey_append (h1 h2 : List (String × String)) (k : String) :
    countKey (h1 ++ h2) k = countKey h1 k + countKey h2 k := by
  simp [countKey, List.filter_append]

theorem countKey_zero_lookup {h : List (String × String)} {k : String}
    (hc : countKey h k = 0) : h.lookup k = none := by
  induction h with
  | nil => rfl
  | cons p t ih =>
    by_cases hb : (p.1 == k) = true
    · rw [countKey, List.filter_cons, if_pos hb] at hc
      simp at hc
    · rw [countKey, List.filter_cons, if_neg hb] at hc
      have hkp : (k == p.1) = false := by
        have h1 : ¬ p.1 = k := by simpa using hb
        simpa using fun hc2 => h1 hc2.symm
      rw [List.lookup_cons, hkp]
      exact ih hc

theorem countKey_singleton_self (k v : String) : countKey [(k, v)] k = 1 := by
  simp [countKey]

theorem countKey_singleton_other {k k' : String} (v : String) (hne : k' ≠ k) :
    countKey [(k', v)] k = 0 := by
  simp [countKey, List.filter_cons, hne]

theorem countKey_map_set (h : List (String × String)) {k k' : String} (v : String)
    (hne : k' ≠ k) :
    countKey (h.map (fun p => if p.1 = k' then (k', v) else p)) k = countKey h k := by
  induction h with
  | nil => rfl
  | cons p t ih =>
    rw [List.map_cons]
    by_cases hp : p.1 = k'
    · rw [if_pos hp]
      rw [countKey, List.filter_cons, countKey, List.filter_cons]
      have h1 : ¬ ((k', v).1 == k) = true := by simpa using hne
      have h2 : ¬ (p.1 == k) = true := by
        simp only [beq_iff_eq]
        rw [hp]
        exact hne
      rw [if_neg h1, if_neg h2]
      exact ih
    · rw [if_neg hp]
      rw [countKey, List.filter_cons, countKey, List.filter_cons]
      by_cases hb : (p.1 == k) = true
      · rw [if_pos hb, if_pos hb]
        simp only [List.length_cons]
        rw [show List.length (List.filter (fun p => p.1 == k)
          (List.map (fun p => if p.1 = k' then (k', v) else p) t)) = countKey
          (List.map (fun p => if p.1 = k' then (k', v) else p) t) k from rfl, ih]
        rfl
      · rw [if_neg hb, if_neg hb]
        exact ih

theorem countKey_setHeader_self {h : List (String × String)} {k : String}
    (v : String) (hc : countKey h k = 0) : countKey (setHeader h k v) k = 1 := by
  unfold setHeader
  rw [countKey_zero_lookup hc]
  simp only [Option.isSome_none, Bool.false_eq_true, if_false]
  rw [countKey_append, hc, countKey_singleton_self]

theorem countKey_setHeader_other {h : List (String × String)} {k k' : String}
    (v : String) (hne : k' ≠ k) :
    countKey (setHeader h k' v) k = countKey h k := by
  unfold setHeader
  split
  · exact countKey_map_set h v hne
  · rw [countKey_append, countKey_singleton_other v hne]
    rfl

/-- C7: for every detector, the first access to the lazily-built WCS
constructs exactly one instance - the memo moves from empty to that
instance and the construction counter advances once - and every later
access in the session returns the identical cached instance with the
state unchanged (so nothing is rebuilt and nothing is re-injected); the
enrichment fields appear exactly once each, and only when the
normalized identity matches the raft/sensor pattern (OBSID additionally
requires the Opsim_obshistid pointing metadata to be present). -/
theorem C7_wcs_lazy_once (denv : DetEnv) (s : DetWcsState)
    (hcache : s.cached = none)
    (hfn : ∃ fn, filtNum denv.bandpass = some fn)
    (hclean : countKey denv.baseHeader "CHIPID" = 0 ∧
      countKey denv.baseHeader "OBSID" = 0 ∧
      countKey denv.baseHeader "OUTFILE" = 0) :
    ∃ w, wcsGet denv s = (.ok w, { cached := some w, buildCount := s.buildCount + 1 }) ∧
      wcsGet denv { cached := some w, buildCount := s.buildCount + 1 } =
        (.ok w, { cached := some w, buildCount := s.buildCount + 1 }) ∧
      countKey w.header "CHIPID" =
        (if matchesRaftPattern denv.fileName then 1 else 0) ∧
      countKey w.header "OUTFILE" =
        (if matchesRaftPattern denv.fileName then 1 else 0) ∧
      countKey w.header "OBSID" =
        (if matchesRaftPattern denv.fileName && denv.obshistid.isSome
         then 1 else 0) := by
  obtain ⟨hcCH, hcOB, hcOU⟩ := hclean
  obtain ⟨fn, hfneq⟩ := hfn
  unfold wcsGet
  rw [hcache]
  dsimp only
  by_cases hm : matchesRaftPattern denv.fileName = true
  · rw [if_pos hm]
    cases hob : denv.obshistid with
    | some v =>
      rw [hfneq]
      dsimp only
      refine ⟨_, rfl, rfl, ?_, ?_, ?_⟩
      · rw [countKey_setHeader_other _ (by decide),
          countKey_setHeader_other _ (by decide),
          countKey_setHeader_self _ hcCH, if_pos hm]
      · rw [countKey_setHeader_self _ ?_, if_pos hm]
        rw [countKey_setHeader_other _ (by decide),
          countKey_setHeader_other _ (by decide)]
        exact hcOU
      · rw [countKey_setHeader_other _ (by decide),
          countKey_setHeader_self _ ?_, hm]
        · simp
        · rw [countKey_setHeader_other _ (by decide)]
          exact hcOB
    | none =>
      rw [hfneq]
      dsimp only
      refine ⟨_, rfl, rfl, ?_, ?_, ?_⟩
      · rw [countKey_setHeader_other _ (by decide),
          countKey_setHeader_self _ hcCH, if_pos hm]
      · rw [countKey_setHeader_self _ ?_, if_pos hm]
        rw [countKey_setHeader_other _ (by decide)]
        exact hcOU
      · rw [countKey_setHeader_other _ (by decide),
          countKey_setHeader_other _ (by decide), hcOB, hm]
        simp
  · rw [if_neg hm]
    have hmf : matchesRaftPattern denv.fileName = false :=
      Bool.not_eq_true _ ▸ (by simpa using hm)
    refine ⟨_, rfl, rfl, ?_, ?_, ?_⟩
    · rw [hcCH, hmf]
      rfl
    · rw [hcOU, hmf]
      rfl
    · rw [hcOB, hmf]
      rfl

/-- C7 witness: the statement at a concrete raft/sensor detector with a
single u bandpass and Opsim_obshistid 1234. -/
theorem C7_wcs_lazy_once_witness :
    ∃ w, wcsGet denvC7 sC7 = (.ok w, { cached := some w, buildCount := 1 }) ∧
      wcsGet denvC7 { cached := some w, buildCount := 1 } =
        (.ok w, { cached := some w, buildCount := 1 }) ∧
      countKey w.header "CHIPID" =
        (if matchesRaftPattern denvC7.fileName then 1 else 0) ∧
      countKey w.header "OUTFILE" =
        (if matchesRaftPattern denvC7.fileName then 1 else 0) ∧
      countKey w.header "OBSID" =
        (if matchesRaftPattern denvC7.fileName && denvC7.obshistid.isSome
         then 1 else 0) :=
  C7_wcs_lazy_once denvC7 sC7 rfl ⟨0, rfl⟩ (by decide)

/-- C10: drawObject is not atomic on flux-lookup failure: when the
object's flux dictionary lacks a configured bandpass, the second loop's
lookup raises RuntimeError mid-call, yet every composite image created
(and noise-injected) by the first loop during that same call - the keys
of every affected detector crossed with every configured bandpass,
including the very keys of the failed object - remains in the image
cache; no rollback occurs. -/
theorem C10_no_rollback (env : Env) (st : SessionState) (o : GsObject)
    (outStr : Option String) (dets : List GalSimDetector) (prof : GSProfile)
    (st1 : SessionState) (b : String)
    (hfind : findAllDetectors env st o = (.ok (some (outStr, dets, prof)), st1))
    (hsed : o.sed ≠ none) (hdets : dets ≠ [])
    (hb : b ∈ env.bandpassNames) (hmiss : o.fluxDict.lookup b = none) :
    ∃ st3, drawObject env st o = (.error .runtimeError, st3) ∧
      ∀ d ∈ dets, ∀ bp ∈ env.bandpassNames,
        ((st3.detectorImages).lookup (getFileName d bp)).isSome = true := by
  unfold drawObject
  rw [hfind]
  dsimp only
  rw [if_neg ?hcond]
  case hcond =>
    rintro (hc | hc)
    · exact hsed hc
    · exact hdets (List.length_eq_zero.mp hc)
  obtain ⟨st2, heq, hdict⟩ :=
    drawOnBandpasses_err hdets hmiss env.bandpassNames
      (initAllImages env st1 dets) hb
  rw [heq]
  refine ⟨st2, rfl, ?_⟩
  intro d hd bp hbp
  rw [hdict]
  exact initAllImages_creates dets st1 hd hbp

/-- C10 witness: the statement at the concrete fixture: objC10 has an
empty flux dictionary, drawObject raises RuntimeError, and the key
"R_0_0_S_1_1_u.fits" created earlier in the same call stays cached. -/
theorem C10_no_rollback_witness :
    ∃ st3, drawObject envW stEmpty objC10 = (.error .runtimeError, st3) ∧
      ∀ d ∈ ([detW] : List GalSimDetector), ∀ bp ∈ envW.bandpassNames,
        ((st3.detectorImages).lookup (getFileName d bp)).isSome = true :=
  C10_no_rollback envW stEmpty objC10 (some "R_0_0_S_1_1") [detW]
    (drawSersic envW.psfPresent objC10) (rngTick stEmpty) "u"
    (by with_unfolding_all rfl) (by decide) (by simp) (by decide) (by decide)

/-- C8: every request to the blank-image cache returns a freshly
allocated buffer: two successive requests for the same detector return
two distinct image objects, both distinct from the cached template, both
of the detector's exact pixel dimensions, and writing a pixel of either
returned buffer leaves every other live image object - the template and
the other returned buffer included - unchanged. -/
theorem C8_blank_image_copies (st : SessionState) (det : GalSimDetector)
    (i1 : Nat) (st1 : SessionState) (i2 : Nat) (st2 : SessionState)
    (hkb : KeysBoundP st.heap) (hcp : CachePresentP st)
    (hdims : ∀ tid, st.blankImageCache.lookup det.name = some tid →
      ∃ d, st.heap.get tid = some d ∧ d.nx = det.xMaxPix - det.xMinPix + 1 ∧
        d.ny = det.yMaxPix - det.yMinPix + 1)
    (h1 : blankImage st det = (i1, st1))
    (h2 : blankImage st1 det = (i2, st2)) :
    i1 ≠ i2 ∧
    (∀ tid, st2.blankImageCache.lookup det.name = some tid →
      tid ≠ i1 ∧ tid ≠ i2) ∧
    (∃ d1, st2.heap.get i1 = some d1 ∧ d1.nx = det.xMaxPix - det.xMinPix + 1 ∧
      d1.ny = det.yMaxPix - det.yMinPix + 1) ∧
    (∃ d2, st2.heap.get i2 = some d2 ∧ d2.nx = det.xMaxPix - det.xMinPix + 1 ∧
      d2.ny = det.yMaxPix - det.yMinPix + 1) ∧
    (∀ (p : Int × Int) (v : ℚ) (j : Nat), j ≠ i1 →
      (st2.heap.writePixel i1 p v).get j = st2.heap.get j) ∧
    (∀ (p : Int × Int) (v : ℚ) (j : Nat), j ≠ i2 →
      (st2.heap.writePixel i2 p v).get j = st2.heap.get j) := by
  have hwp : ∀ (h : Heap) (i : Nat) (p : Int × Int) (v : ℚ) (j : Nat), j ≠ i →
      (h.writePixel i p v).get j = h.get j := by
    intro h i p v j hj
    unfold Heap.writePixel
    exact Heap.get_modify_ne _ _ _ hj
  rw [blankImage_eq] at h1
  cases hl : st.blankImageCache.lookup det.name with
  | some tid =>
    rw [hl] at h1
    injection h1 with h1a h1b
    subst h1a
    subst h1b
    have htlt : tid < st.heap.nextId := by
      refine getP_lt hkb (Option.isSome_iff_exists.mp ?_).choose_spec
      exact hcp (det.name, tid) (lookup_eq_some_mem hl)
    obtain ⟨dt, hdt, hdtx, hdty⟩ := hdims tid hl
    rw [blankImage_eq] at h2
    rw [show ({ st with heap := (st.heap.alloc
        ((st.heap.get tid).getD (blankData det))).2 } :
        SessionState).blankImageCache = st.blankImageCache from rfl, hl] at h2
    injection h2 with h2a h2b
    subst h2a
    subst h2b
    dsimp only
    have hd0 : (st.heap.get tid).getD (blankData det) = dt := by
      rw [hdt]
      rfl
    have hget1 : (st.heap.alloc dt).2.get tid = some dt := by
      rw [Heap.get_alloc, if_neg (Nat.ne_of_lt htlt), hdt]
    rw [hd0, hget1]
    have hd0b : (some dt).getD (blankData det) = dt := rfl
    rw [hd0b]
    refine ⟨?_, ?_, ?_, ?_, fun p v j hj => hwp _ _ p v j hj,
      fun p v j hj => hwp _ _ p v j hj⟩
    · rw [Heap.alloc_nextId]
      omega
    · intro tid2 hl2
      rw [hl] at hl2
      injection hl2 with hl2
      subst hl2
      refine ⟨Nat.ne_of_lt htlt, ?_⟩
      rw [Heap.alloc_nextId]
      omega
    · refine ⟨dt, ?_, hdtx, hdty⟩
      rw [Heap.get_alloc, Heap.alloc_nextId, if_neg (by omega), Heap.get_alloc,
        if_pos rfl]
    · refine ⟨dt, ?_, hdtx, hdty⟩
      rw [Heap.get_alloc, if_pos rfl]
  | none =>
    rw [hl] at h1
    injection h1 with h1a h1b
    subst h1a
    subst h1b
    rw [blankImage_eq] at h2
    have hc1 : List.lookup det.name
        (st.blankImageCache ++ [(det.name, st.heap.nextId)]) =
        some st.heap.nextId := by
      rw [lookup_append_right hl, List.lookup_cons]
      simp
    rw [show (({ st with
        heap := (((st.heap.alloc (blankData det)).2).alloc (blankData det)).2
        blankImageCache := st.blankImageCache ++ [(det.name, st.heap.nextId)] } :
        SessionState)).blankImageCache =
        st.blankImageCache ++ [(det.name, st.heap.nextId)] from rfl, hc1] at h2
    injection h2 with h2a h2b
    subst h2a
    subst h2b
    dsimp only
    have hgetN : (((st.heap.alloc (blankData det)).2).alloc (blankData det)).2.get
        st.heap.nextId = some (blankData det) := by
      rw [Heap.get_alloc, Heap.alloc_nextId, if_neg (by omega), Heap.get_alloc,
        if_pos rfl]
    rw [hgetN]
    have hd0 : (some (blankData det)).getD (blankData det) = blankData det := rfl
    rw [hd0]
    refine ⟨?_, ?_, ?_, ?_, fun p v j hj => hwp _ _ p v j hj,
      fun p v j hj => hwp _ _ p v j hj⟩
    · rw [Heap.alloc_nextId, Heap.alloc_nextId]
      omega
    · intro tid2 hl2
      rw [hc1] at hl2
      injection hl2 with hl2
      subst hl2
      refine ⟨by omega, ?_⟩
      rw [Heap.alloc_nextId, Heap.alloc_nextId]
      omega
    · refine ⟨blankData det, ?_, rfl, rfl⟩
      rw [Heap.get_alloc, Heap.alloc_nextId, Heap.alloc_nextId,
        if_neg (by omega), Heap.get_alloc, Heap.alloc_nextId, if_pos rfl]
    · refine ⟨blankData det, ?_, rfl, rfl⟩
      rw [Heap.get_alloc, Heap.alloc_nextId, Heap.alloc_nextId, if_pos rfl]

/-- C8 witness: the fresh session with detW: the first call allocates
the template (object 0) and returns object 1; the second call returns
object 2. -/
theorem C8_blank_image_copies_witness :
    (1 : Nat) ≠ 2 ∧
    (∀ tid, st2W.blankImageCache.lookup detW.name = some tid →
      tid ≠ 1 ∧ tid ≠ 2) ∧
    (∃ d1, st2W.heap.get 1 = some d1 ∧ d1.nx = detW.xMaxPix - detW.xMinPix + 1 ∧
      d1.ny = detW.yMaxPix - detW.yMinPix + 1) ∧
    (∃ d2, st2W.heap.get 2 = some d2 ∧ d2.nx = detW.xMaxPix - detW.xMinPix + 1 ∧
      d2.ny = detW.yMaxPix - detW.yMinPix + 1) ∧
    (∀ (p : Int × Int) (v : ℚ) (j : Nat), j ≠ 1 →
      (st2W.heap.writePixel 1 p v).get j = st2W.heap.get j) ∧
    (∀ (p : Int × Int) (v : ℚ) (j : Nat), j ≠ 2 →
      (st2W.heap.writePixel 2 p v).get j = st2W.heap.get j) :=
  C8_blank_image_copies stEmpty detW 1 st1W 2 st2W
    (by intro p hp; cases hp) (by intro c hc; cases hc)
    (by intro tid htid; cases htid) rfl rfl

/-- C9 witness: the statement at the concrete fixture, where the locator
accepts detW and reports "R_0_0_S_1_1". -/
theorem C9_output_identifiers_witness :
    ((some "R_0_0_S_1_1" : Option String) = none ↔
      ([detW] : List GalSimDetector) = []) ∧
    (([detW] : List GalSimDetector) ≠ [] →
      (some "R_0_0_S_1_1" : Option String) =
        some (specJoin (([detW] : List GalSimDetector).map GalSimDetector.name))) ∧
    (∀ r st2, drawObject envW stEmpty objW = (.ok r, st2) →
      r = some "R_0_0_S_1_1") :=
  C9_output_identifiers envW stEmpty objW (some "R_0_0_S_1_1") [detW]
    (drawSersic envW.psfPresent objW) (rngTick stEmpty)
    (by decide) (by with_unfolding_all rfl)

end GalSim
